import Mathlib

/-!
# Drift-analysis dashboard: the client-side monitor

A shallow embedding of the two dashboard scripts

* `src/static/js/dashboard.js` (the basic variant, namespace `Basic`), and
* `src/threat_fv2/static/js/dashboard.js` (the richer variant, namespace `Fv2`),

followed by the properties of the chart buffer, the alert list, the risk
tiers, the initialise handler and the auto-monitor timer.

Modelling conventions.

* Numbers are exact: a JSON float is a rational, a JSON int an integer, and the
  only non-finite values are the ones an integer division by zero produces
  (`JsNum`).  Rounding of IEEE doubles is not modelled.
* The DOM is a record (`UI`) with one field per element property the scripts
  write.  A text written through `toFixed` is kept as the number and the digit
  count (`Text`), not as a string of digits.
* Strings interpolated into markup are taken to be plain text.
* A response body is decoded JSON of any shape as far as `updateUI` can throw on
  it: `average_drift` may fail to be a number, `logs` may be absent, not an
  array, or an array with `null` or incomplete entries (`Payload`, `LogsField`,
  `RawLog`).  A well-formed body (`AnalysisResult`) is the special case with
  every field present and of its documented type.
* A handler that awaits a network call is modelled at the moment its response
  arrives; what it wrote before the `await` is applied first.
* All clock readings taken inside one synchronous `updateUI` call are the same
  reading, passed in as `now`.
-/

namespace DriftDashboard

/-! ## JavaScript values -/

/-- JavaScript number in exact arithmetic: a finite rational or one of the
special values that a division by zero yields. -/
inductive JsNum where
  | fin (q : ℚ)
  | posInf
  | negInf
  | nan
  deriving DecidableEq

namespace JsNum

/-- The quotient `a / b` of two integer operands. -/
def divInt (a b : Int) : JsNum :=
  if b = 0 then
    if 0 < a then posInf else if a < 0 then negInf else nan
  else fin ((a : ℚ) / (b : ℚ))

/-- The product `x * 100`. -/
def times100 : JsNum → JsNum
  | fin q => fin (q * 100)
  | posInf => posInf
  | negInf => negInf
  | nan => nan

/-- The comparison `x > c` against a finite constant. -/
def gt : JsNum → ℚ → Bool
  | fin q, c => decide (c < q)
  | posInf, _ => true
  | negInf, _ => false
  | nan, _ => false

end JsNum

/-- The test `s.includes(pat)` on strings. -/
def jsIncludes (s pat : String) : Bool :=
  s.data.tails.any (fun t => pat.data.isPrefixOf t)

/-- Replace the first occurrence of `pat` in a list of characters. -/
def replaceFirstChars (pat rep : List Char) : List Char → List Char
  | [] => if pat.isEmpty then rep else []
  | c :: cs =>
    if pat.isPrefixOf (c :: cs) then rep ++ (c :: cs).drop pat.length
    else c :: replaceFirstChars pat rep cs

/-- The call `s.replace(pat, rep)` with a string pattern: only the first
occurrence is replaced. -/
def jsReplace (s pat rep : String) : String :=
  ⟨replaceFirstChars pat.data rep.data s.data⟩

/-! ## Data model -/

/-- One entry of `AnalysisResult.logs`. -/
structure LogEntry where
  is_threat : Bool
  drift_score : ℚ
  login_time : ℚ
  cmd_complexity : ℚ
  action_type : String
  user_id : Option String
  resource_access_count : Int
  intent_prediction : String
  deriving DecidableEq

/-- A well-formed body of `GET /api/analyze`. -/
structure AnalysisResult where
  average_drift : ℚ
  total_analyzed : Int
  threat_count : Int
  forecast_prob : ℚ
  drift_slope : ℚ
  logs : List LogEntry
  deriving DecidableEq

/-- A number-valued field of a log entry as decoded JSON: a number, or anything
else (absent, `null`, a string, ..), on which `.toFixed` throws.  For a value
that is not a number `exceeds` records what the comparison
`log.drift_score > 0.4` yields under coercion (`false` when absent or
`null`). -/
inductive NumField where
  | num (q : ℚ)
  | other (exceeds : Bool)
  deriving DecidableEq

/-- A non-null element of the `logs` array as decoded JSON.  `is_threat` is the
truthiness of the field.  `drift_score`, `cmd_complexity` and `action_type`
are the fields on which the scripts call a method (`toFixed`, `replace`):
`none` (or `NumField.other`) stands for a value without that method.  The
remaining fields are only interpolated or compared, which never throws; `none`
stands for an absent value.  An element that is a number, a string, a boolean
or an array reads `undefined` for every field and is the entry with every
field absent. -/
structure RawLog where
  is_threat : Bool
  drift_score : NumField
  login_time : Option ℚ
  cmd_complexity : Option ℚ
  action_type : Option String
  user_id : Option String
  resource_access_count : Option Int
  intent_prediction : Option String
  deriving DecidableEq

/-- A well-formed log entry as the decoded element it comes from. -/
def LogEntry.toRaw (l : LogEntry) : RawLog :=
  { is_threat := l.is_threat
    drift_score := NumField.num l.drift_score
    login_time := some l.login_time
    cmd_complexity := some l.cmd_complexity
    action_type := some l.action_type
    user_id := l.user_id
    resource_access_count := some l.resource_access_count
    intent_prediction := some l.intent_prediction }

/-- The field `data.logs` as decoded JSON: absent or `null` (reading `.length`
throws); a value that is not an array and so has no `forEach`
(`positiveLength` is the outcome of `data.logs.length > 0`, true for a
non-empty string, false for a number or a boolean); or an array, whose `null`
elements are `none`. -/
inductive LogsField where
  | missing
  | nonArray (positiveLength : Bool)
  | array (entries : List (Option RawLog))
  deriving DecidableEq

/-- The `logs` field of a well-formed result. -/
def wellFormedLogs (logs : List LogEntry) : LogsField :=
  LogsField.array (logs.map (fun l => some l.toRaw))

/-- The decoded JSON handed to `updateUI`.  `average_drift` is `none` when it
is not a number (then `data.average_drift.toFixed` throws; a body that is not
an object at all behaves the same).  The other top-level numbers are only
added, divided or compared, which never throws, and are taken to be numbers.
The places where `updateUI` can throw are thus: `average_drift.toFixed`, the
read of `data.logs.length`, the call of `forEach` on `data.logs`, and inside
the loop the reads and method calls on one entry. -/
structure Payload where
  average_drift : Option ℚ
  total_analyzed : Int
  threat_count : Int
  forecast_prob : ℚ
  drift_slope : ℚ
  logs : LogsField
  deriving DecidableEq

/-- A well-formed result seen as a payload with every field present. -/
def AnalysisResult.toPayload (r : AnalysisResult) : Payload :=
  { average_drift := some r.average_drift
    total_analyzed := r.total_analyzed
    threat_count := r.threat_count
    forecast_prob := r.forecast_prob
    drift_slope := r.drift_slope
    logs := wellFormedLogs r.logs }

/-- One element of `GET /api/history`. -/
structure HistoryPoint where
  timestamp : String
  drift_score : ℚ
  deriving DecidableEq

/-- How a `fetch(..)` followed by `response.json()` ends. -/
inductive Fetch (α : Type) where
  | rejected
  | notJson
  | json (body : α)

/-! ## The page -/

/-- Text content of an element. -/
inductive Text where
  | raw (s : String)
  | fixed (x : JsNum) (digits : Nat)
  | fixedPct (x : JsNum) (digits : Nat)
  | pct (x : JsNum)
  deriving DecidableEq

/-- A child of `#alert-list`: the placeholder the page starts with (the element
holding the words "No active threats"), or an alert built from a log entry at
a clock reading. -/
inductive Item where
  | placeholder
  | alert (log : RawLog) (time : String)
  deriving DecidableEq

/-- The element properties the scripts read and write. -/
structure UI where
  driftScore : Text
  eventsCount : Int
  intentText : String
  intentClass : String
  intentDesc : String
  threatProb : Text
  threatClass : String
  progressWidth : Text
  progressClass : String
  labels : List String
  values : List ℚ
  alerts : List Item
  alertCount : Nat
  systemStatus : String
  systemStatusClass : String
  analyzeBtnHtml : String
  analyzeBtnDisabled : Bool
  initBtnHtml : String
  initBtnDisabled : Bool
  deriving DecidableEq

/-- Result of running a function body: the page it left, and whether it ended
by throwing. -/
structure Outcome where
  ui : UI
  threw : Bool
  deriving DecidableEq

/-- Result of a handler with a `try`/`catch`: the page it left, and whether
the `catch` block ran (`console.error`). -/
structure Handled where
  ui : UI
  logged : Bool
  deriving DecidableEq

def spinnerAnalyzing : String :=
  "<span class=\"spinner-border spinner-border-sm me-2\"></span>Analyzing..."

def labelRunAnalysis : String :=
  "<i class=\"bi bi-play-fill me-1\"></i> Run Drift Analysis"

def spinnerBaseline : String :=
  "<span class=\"spinner-border spinner-border-sm me-2\"></span>Establishing Baseline..."

def labelBaselineReady : String :=
  "<i class=\"bi bi-check-circle-fill me-1\"></i> Baseline Ready"

def noActiveThreats : String := "No active threats"

/-! ## Code shared verbatim by the two scripts -/

/-- The threat tile and progress bar: `threatEl.innerText`, the bar width, and
the three-way class choice on `threatProb > 15`, `threatProb > 5`. -/
def renderThreat (threatProb : JsNum) (ui : UI) : UI :=
  let ui := { ui with threatProb := Text.fixedPct threatProb 1, progressWidth := Text.pct threatProb }
  if threatProb.gt 15 then
    { ui with threatClass := "stat-value threat-high", progressClass := "progress-bar bg-danger" }
  else if threatProb.gt 5 then
    { ui with threatClass := "stat-value threat-med", progressClass := "progress-bar bg-warning" }
  else
    { ui with threatClass := "stat-value threat-low", progressClass := "progress-bar bg-success" }

/-- The chart update: push a label and a value, then, if there are more than
`bound` labels, `shift()` both arrays once. -/
def chartPush (bound : Nat) (now : String) (v : ℚ) (ui : UI) : UI :=
  let labels := ui.labels ++ [now]
  let values := ui.values ++ [v]
  if labels.length > bound then
    { ui with labels := labels.tail, values := values.tail }
  else
    { ui with labels := labels, values := values }

/-- The click handler of `#init-btn` (the same text in both scripts). -/
def initClick {α : Type} (resp : Fetch α) (ui : UI) : UI :=
  let ui := { ui with initBtnHtml := spinnerBaseline, initBtnDisabled := true }
  match resp with
  | .json _ =>
    { ui with
      systemStatus := "OPERATIONAL"
      systemStatusClass := "stat-value text-success"
      analyzeBtnDisabled := false
      initBtnHtml := labelBaselineReady }
  | _ =>
    { ui with initBtnDisabled := false, initBtnHtml := "Retry Initialization" }

/-- The call `entries.forEach(callback)` on the alert list: the callback runs
on the entries in order; `step` gives the list it leaves, or `none` when it
throws, which ends the loop with the list as it stood.  The second component
tells whether the loop threw. -/
def forEachAlert (step : Option RawLog → List Item → Option (List Item)) :
    List (Option RawLog) → List Item → List Item × Bool
  | [], acc => (acc, false)
  | slot :: rest, acc =>
    match step slot acc with
    | none => (acc, true)
    | some acc1 => forEachAlert step rest acc1

/-! ## The basic variant: `src/static/js/dashboard.js` -/

namespace Basic

/-- Creation of the chart with empty `labels` and `data`. -/
def initChart (ui : UI) : UI :=
  { ui with labels := [], values := [] }

/-- The intent tile: `forecast_prob > 20`, `> 10`, otherwise. -/
def renderIntent (data : Payload) (ui : UI) : UI :=
  if data.forecast_prob > 20 then
    { ui with
      intentText := "HIGH RISK"
      intentClass := "stat-value text-danger"
      intentDesc := "<i class=\"bi bi-exclamation-octagon-fill me-1\"></i> Prediction: Imminent Threat" }
  else if data.forecast_prob > 10 then
    { ui with
      intentText := "CAUTION"
      intentClass := "stat-value text-warning"
      intentDesc := "<i class=\"bi bi-exclamation-triangle-fill me-1\"></i> Prediction: Increasing Drift" }
  else
    { ui with
      intentText := "NORMAL"
      intentClass := "stat-value text-success"
      intentDesc := "<i class=\"bi bi-clock-history me-1\"></i> Prediction: No Threat" }

/-- Whether the markup of an alert-list child contains "No active threats".
An alert of this variant interpolates only numbers and a clock reading. -/
def itemIncludesMarker : Item → Bool
  | .placeholder => true
  | .alert _ time => jsIncludes time noActiveThreats

/-- The `forEach` callback on one entry: reading `log.is_threat` throws on
`null`; for a threat the item is built (`drift_score.toFixed`,
`cmd_complexity.toFixed`, either of which throws on a non-number) and then
prepended. -/
def alertStep (now : String) (slot : Option RawLog) (acc : List Item) : Option (List Item) :=
  match slot with
  | none => none
  | some log =>
    if log.is_threat then
      match log.drift_score, log.cmd_complexity with
      | .num _, some _ => some (Item.alert log now :: acc)
      | _, _ => none
    else some acc

/-- The alert block: read `data.logs.length`; when it is positive clear the
placeholder, prepend one item per `is_threat` entry of the batch, and write
the count. -/
def renderAlerts (now : String) (logs : LogsField) (ui : UI) : Outcome :=
  match logs with
  | .missing => { ui := ui, threw := true }
  | .nonArray positiveLength =>
    if positiveLength then
      { ui := { ui with alerts := if ui.alerts.any itemIncludesMarker then [] else ui.alerts }
        threw := true }
    else { ui := ui, threw := false }
  | .array entries =>
    if entries.length > 0 then
      let cleared := if ui.alerts.any itemIncludesMarker then [] else ui.alerts
      let looped := forEachAlert (alertStep now) entries cleared
      if looped.2 then { ui := { ui with alerts := looped.1 }, threw := true }
      else { ui := { ui with alerts := looped.1, alertCount := looped.1.length }, threw := false }
    else { ui := ui, threw := false }

/-- The function `updateUI(data)`. -/
def updateUI (now : String) (data : Payload) (ui : UI) : Outcome :=
  match data.average_drift with
  | none => { ui := ui, threw := true }
  | some avg =>
    let ui := { ui with
      driftScore := Text.fixed (JsNum.fin avg) 4
      eventsCount := ui.eventsCount + data.total_analyzed }
    let ui := renderIntent data ui
    let threatProb := (JsNum.divInt data.threat_count data.total_analyzed).times100
    let ui := renderThreat threatProb ui
    let ui := chartPush 20 now avg ui
    renderAlerts now data.logs ui

/-- The click handler of `#analyze-btn`. -/
def analyzeClick (now : String) (resp : Fetch Payload) (ui : UI) : Handled :=
  let ui := { ui with analyzeBtnHtml := spinnerAnalyzing }
  let tried : Outcome :=
    match resp with
    | .json data => updateUI now data ui
    | _ => { ui := ui, threw := true }
  { ui := { tried.ui with analyzeBtnHtml := labelRunAnalysis }, logged := tried.threw }

/-- A run of `updateUI` calls on well-formed results, one clock reading each. -/
def updates (calls : List (String × AnalysisResult)) (ui : UI) : UI :=
  calls.foldl (fun u c => (updateUI c.1 c.2.toPayload u).ui) ui

/-- The events the basic script listens to, each with the outcome of the
request its handler makes. -/
inductive Event where
  | init (resp : Fetch Unit)
  | analyze (now : String) (resp : Fetch Payload)

/-- Dispatch of one event.  A disabled button receives no click. -/
def handle (e : Event) (ui : UI) : UI :=
  match e with
  | .init resp => if ui.initBtnDisabled then ui else initClick resp ui
  | .analyze now resp => if ui.analyzeBtnDisabled then ui else (analyzeClick now resp ui).ui

/-- A sequence of events. -/
def run (events : List Event) (ui : UI) : UI :=
  events.foldl (fun u e => handle e u) ui

end Basic

/-! ## The richer variant: `src/threat_fv2/static/js/dashboard.js` -/

namespace Fv2

/-- Creation of the chart with empty `labels` and `data`. -/
def newChart (ui : UI) : UI :=
  { ui with labels := [], values := [] }

/-- The history preload: for each point, in order, push its formatted
timestamp and its drift score; a failed request leaves the chart as it is. -/
def loadHistory (toLocaleTimeString : String → String) (resp : Fetch (List HistoryPoint))
    (ui : UI) : UI :=
  match resp with
  | .json history =>
    history.foldl
      (fun u point =>
        { u with
          labels := u.labels ++ [toLocaleTimeString point.timestamp]
          values := u.values ++ [point.drift_score] })
      ui
  | _ => ui

/-- The function `initChart()`. -/
def initChart (toLocaleTimeString : String → String) (resp : Fetch (List HistoryPoint))
    (ui : UI) : UI :=
  loadHistory toLocaleTimeString resp (newChart ui)

/-- The trend word chosen from `drift_slope`. -/
def trendText (data : Payload) : String :=
  if data.drift_slope > 5 / 1000 then "Escalating"
  else if data.drift_slope < -(5 / 1000) then "Subsiding"
  else "Stable"

/-- The intent tile: `forecast_prob > 50`, `> 20`, otherwise. -/
def renderIntent (data : Payload) (ui : UI) : UI :=
  if data.forecast_prob > 50 then
    { ui with
      intentText := "CRITICAL"
      intentClass := "stat-value text-danger"
      intentDesc := "<i class=\"bi bi-exclamation-octagon-fill me-1\"></i> Trend: "
        ++ trendText data ++ " (High Risk)" }
  else if data.forecast_prob > 20 then
    { ui with
      intentText := "WARNING"
      intentClass := "stat-value text-warning"
      intentDesc := "<i class=\"bi bi-exclamation-triangle-fill me-1\"></i> Trend: "
        ++ trendText data }
  else
    { ui with
      intentText := "NORMAL"
      intentClass := "stat-value text-success"
      intentDesc := "<i class=\"bi bi-check-circle me-1\"></i> Trend: " ++ trendText data }

/-- Whether the markup of an alert-list child contains "No active threats".
An alert of this variant interpolates the action type (after `replace`), the
user id or `System`, and a clock reading. -/
def itemIncludesMarker : Item → Bool
  | .placeholder => true
  | .alert log time =>
    (match log.action_type with
      | some a => jsIncludes (jsReplace a "START:" "APP:") noActiveThreats
      | none => false)
      || jsIncludes
          (match log.user_id with
            | some u => if u.isEmpty then "System" else u
            | none => "System")
          noActiveThreats
      || jsIncludes time noActiveThreats

/-- The condition `log.is_threat || log.drift_score > 0.4` under which a log
entry becomes an alert. -/
def qualifies (log : RawLog) : Bool :=
  log.is_threat ||
    (match log.drift_score with
      | .num q => decide (q > 4 / 10)
      | .other exceeds => exceeds)

/-- The `forEach` callback on one entry: reading `log.is_threat` throws on
`null`; for a qualifying entry the item is built (`action_type.replace`, which
throws unless `action_type` is a string, then `drift_score.toFixed`, which
throws on a non-number) and then prepended. -/
def alertStep (now : String) (slot : Option RawLog) (acc : List Item) : Option (List Item) :=
  match slot with
  | none => none
  | some log =>
    if qualifies log then
      match log.action_type, log.drift_score with
      | some _, .num _ => some (Item.alert log now :: acc)
      | _, _ => none
    else some acc

/-- The loop `while (children.length > 20) removeChild(lastChild)`, with the
cap as a parameter. -/
def trimTo (cap : Nat) (l : List Item) : List Item :=
  if _h : l.length > cap then trimTo cap l.dropLast else l
termination_by l.length
decreasing_by
  simp only [List.length_dropLast]
  omega

/-- The alert block: read `data.logs.length`; when it is positive clear the
placeholder, prepend one item per qualifying entry among the first three of
the batch, trim to twenty, and write the count. -/
def renderAlerts (now : String) (logs : LogsField) (ui : UI) : Outcome :=
  match logs with
  | .missing => { ui := ui, threw := true }
  | .nonArray positiveLength =>
    if positiveLength then
      { ui := { ui with alerts := if ui.alerts.any itemIncludesMarker then [] else ui.alerts }
        threw := true }
    else { ui := ui, threw := false }
  | .array entries =>
    if entries.length > 0 then
      let cleared := if ui.alerts.any itemIncludesMarker then [] else ui.alerts
      let looped := forEachAlert (alertStep now) (entries.take 3) cleared
      if looped.2 then { ui := { ui with alerts := looped.1 }, threw := true }
      else
        let list := trimTo 20 looped.1
        { ui := { ui with alerts := list, alertCount := list.length }, threw := false }
    else { ui := ui, threw := false }

/-- The constant `threatProb` of `updateUI`:
`total_analyzed > 0 ? (threat_count / total_analyzed) * 100 : 0`. -/
def threatProb (data : Payload) : JsNum :=
  if data.total_analyzed > 0 then
    (JsNum.divInt data.threat_count data.total_analyzed).times100
  else JsNum.fin 0

/-- The function `updateUI(data)`. -/
def updateUI (now : String) (data : Payload) (ui : UI) : Outcome :=
  match data.average_drift with
  | none => { ui := ui, threw := true }
  | some avg =>
    let ui := { ui with
      driftScore := Text.fixed (JsNum.fin avg) 4
      eventsCount := ui.eventsCount + data.total_analyzed }
    let ui := renderIntent data ui
    let ui := renderThreat (threatProb data) ui
    let ui := chartPush 100 now avg ui
    renderAlerts now data.logs ui

/-- Whether the `forEach` callback throws on an entry: on `null`, and on a
qualifying entry whose `action_type` is not a string or whose `drift_score` is
not a number. -/
def entryThrows : Option RawLog → Bool
  | none => true
  | some log =>
    qualifies log &&
      !(log.action_type.isSome &&
        (match log.drift_score with
          | .num _ => true
          | .other _ => false))

/-- The item the `forEach` callback prepends for an entry on which it does not
throw, if any. -/
def entryItem (now : String) : Option RawLog → Option Item
  | some log => if qualifies log then some (Item.alert log now) else none
  | none => none

/-- The function `runAnalysis()`. -/
def runAnalysis (now : String) (resp : Fetch Payload) (ui : UI) : Handled :=
  let ui := { ui with analyzeBtnHtml := spinnerAnalyzing }
  let tried : Outcome :=
    match resp with
    | .json data => updateUI now data ui
    | _ => { ui := ui, threw := true }
  { ui := { tried.ui with analyzeBtnHtml := labelRunAnalysis }, logged := tried.threw }

/-- A run of `updateUI` calls on well-formed results, one clock reading each. -/
def updates (calls : List (String × AnalysisResult)) (ui : UI) : UI :=
  calls.foldl (fun u c => (updateUI c.1 c.2.toPayload u).ui) ui

/-- A run of `updateUI` calls on arbitrary payloads, one clock reading each;
a call that throws leaves the page as it stood at the throw and the next call
goes on from there.  `threw` tells whether any call of the run threw. -/
def runCalls (calls : List (String × Payload)) (ui : UI) : Outcome :=
  calls.foldl
    (fun o c =>
      { ui := (updateUI c.1 c.2 o.ui).ui
        threw := o.threw || (updateUI c.1 c.2 o.ui).threw })
    { ui := ui, threw := false }

/-- The page together with the timer state of the script: the variable
`monitorInterval`, the intervals that are scheduled and not cleared, the id
the next `setInterval` returns, and how often `runAnalysis` has been invoked
by a handler directly and by an interval tick. -/
structure Page where
  ui : UI
  monitorInterval : Option Nat
  timers : List Nat
  nextTimer : Nat
  directRuns : Nat
  tickRuns : Nat
  deriving DecidableEq

/-- The `change` handler of `#auto-monitor`, given `e.target.checked`. -/
def toggle (checked : Bool) (p : Page) : Page :=
  if checked then
    { p with
      directRuns := p.directRuns + 1
      monitorInterval := some p.nextTimer
      timers := p.timers ++ [p.nextTimer]
      nextTimer := p.nextTimer + 1
      ui := { p.ui with
        analyzeBtnHtml := spinnerAnalyzing
        analyzeBtnDisabled := true
        systemStatus := "MONITORING"
        systemStatusClass := "stat-value text-warning blink" } }
  else
    { p with
      timers :=
        match p.monitorInterval with
        | some id => p.timers.filter (fun t => t != id)
        | none => p.timers
      monitorInterval := none
      ui := { p.ui with
        analyzeBtnDisabled := false
        systemStatus := "OPERATIONAL"
        systemStatusClass := "stat-value text-success" } }

/-- A tick of interval `id`: it invokes `runAnalysis` if that interval is
still scheduled, and does nothing otherwise. -/
def tick (id : Nat) (p : Page) : Page :=
  if id ∈ p.timers then
    { p with
      tickRuns := p.tickRuns + 1
      ui := { p.ui with analyzeBtnHtml := spinnerAnalyzing } }
  else p

/-- A sequence of `change` events. -/
def toggles (events : List Bool) (p : Page) : Page :=
  events.foldl (fun q e => toggle e q) p

/-- A sequence of interval ticks. -/
def ticks (ids : List Nat) (p : Page) : Page :=
  ids.foldl (fun q id => tick id q) p

end Fv2

/-! ## Quantities named by the specification -/

/-- The threat percentage as the specification writes it:
`100 * threat_count / total_analyzed`, in exact arithmetic. -/
def threatPercent (r : AnalysisResult) : ℚ :=
  100 * (r.threat_count : ℚ) / (r.total_analyzed : ℚ)

/-! ## Concrete inputs -/

/-- A page as it stands before any handler has run: empty chart, an alert list
holding only the placeholder, the analyze button disabled and the baseline
button enabled. -/
def examplePage : UI :=
  { driftScore := Text.raw "0.0000"
    eventsCount := 0
    intentText := "NORMAL"
    intentClass := "stat-value text-success"
    intentDesc := ""
    threatProb := Text.raw "0%"
    threatClass := "stat-value threat-low"
    progressWidth := Text.raw "0%"
    progressClass := "progress-bar bg-success"
    labels := []
    values := []
    alerts := [Item.placeholder]
    alertCount := 0
    systemStatus := "OFFLINE"
    systemStatusClass := "stat-value text-muted"
    analyzeBtnHtml := labelRunAnalysis
    analyzeBtnDisabled := true
    initBtnHtml := "Establish Baseline"
    initBtnDisabled := false }

/-- A log entry flagged as a threat. -/
def exampleThreat : LogEntry :=
  { is_threat := true
    drift_score := 9 / 10
    login_time := 3
    cmd_complexity := 1 / 2
    action_type := "START:shell"
    user_id := some "u1"
    resource_access_count := 7
    intent_prediction := "Data Exfiltration" }

/-- A well-formed analysis result with three threats among twenty events. -/
def exampleResult : AnalysisResult :=
  { average_drift := 1 / 4
    total_analyzed := 20
    threat_count := 3
    forecast_prob := 25
    drift_slope := 0
    logs := [exampleThreat] }

/-- A body of `GET /api/analyze` with valid numbers and no `logs` field. -/
def examplePayloadNoLogs : Payload :=
  { exampleResult.toPayload with logs := LogsField.missing }

/-- A decoded log entry that is `{is_threat: true}` and nothing else. -/
def exampleBareThreat : RawLog :=
  { is_threat := true
    drift_score := NumField.other false
    login_time := none
    cmd_complexity := none
    action_type := none
    user_id := none
    resource_access_count := none
    intent_prediction := none }

/-- A body of `GET /api/analyze` with valid numbers and `logs: [{is_threat: true}]`. -/
def examplePayloadBareThreat : Payload :=
  { exampleResult.toPayload with logs := LogsField.array [some exampleBareThreat] }

/-- A well-formed analysis result whose batch holds three threats. -/
def exampleBatch : AnalysisResult :=
  { exampleResult with logs := [exampleThreat, exampleThreat, exampleThreat] }

/-- A body of `GET /api/analyze` whose batch holds two well-formed threats
followed by `{is_threat: true}`. -/
def examplePayloadBadThird : Payload :=
  { exampleResult.toPayload with
    logs := LogsField.array
      [some exampleThreat.toRaw, some exampleThreat.toRaw, some exampleBareThreat] }

/-- A history point. -/
def examplePoint : HistoryPoint :=
  { timestamp := "2024-01-01 12:00:00", drift_score := 1 / 4 }

/-- The page with the idle timer state: no interval scheduled. -/
def exampleIdle : Fv2.Page :=
  { ui := examplePage
    monitorInterval := none
    timers := []
    nextTimer := 1
    directRuns := 0
    tickRuns := 0 }

end DriftDashboard

namespace DriftDashboard

/-! ## The chart buffer -/

section ChartLemmas

theorem chartPush_labels (bound : Nat) (now : String) (v : ℚ) (ui : UI) :
    (chartPush bound now v ui).labels
      = if bound < ui.labels.length + 1 then (ui.labels ++ [now]).tail else ui.labels ++ [now] := by
  unfold chartPush
  by_cases h : bound < ui.labels.length + 1 <;> simp [h]

theorem chartPush_values (bound : Nat) (now : String) (v : ℚ) (ui : UI) :
    (chartPush bound now v ui).values
      = if bound < ui.labels.length + 1 then (ui.values ++ [v]).tail else ui.values ++ [v] := by
  unfold chartPush
  by_cases h : bound < ui.labels.length + 1 <;> simp [h]

theorem renderThreat_labels (t : JsNum) (ui : UI) : (renderThreat t ui).labels = ui.labels := by
  unfold renderThreat
  split_ifs <;> rfl

theorem renderThreat_values (t : JsNum) (ui : UI) : (renderThreat t ui).values = ui.values := by
  unfold renderThreat
  split_ifs <;> rfl

theorem renderThreat_alerts (t : JsNum) (ui : UI) : (renderThreat t ui).alerts = ui.alerts := by
  unfold renderThreat
  split_ifs <;> rfl

theorem chartPush_alerts (bound : Nat) (now : String) (v : ℚ) (ui : UI) :
    (chartPush bound now v ui).alerts = ui.alerts := by
  unfold chartPush
  by_cases h : bound < ui.labels.length + 1 <;> simp [h]

/-- Dropping from a list that has lost its head. -/
theorem tail_append_drop {α : Type} (l rest : List α) (k : Nat) (h : l ≠ []) :
    (l.tail ++ rest).drop k = (l ++ rest).drop (k + 1) := by
  cases l with
  | nil => exact absurd rfl h
  | cons a t => simp

end ChartLemmas

section PhaseLemmas

theorem basic_renderIntent_chart (d : Payload) (ui : UI) :
    (Basic.renderIntent d ui).labels = ui.labels ∧ (Basic.renderIntent d ui).values = ui.values
      ∧ (Basic.renderIntent d ui).alerts = ui.alerts := by
  unfold Basic.renderIntent
  split_ifs <;> exact ⟨rfl, rfl, rfl⟩

theorem fv2_renderIntent_chart (d : Payload) (ui : UI) :
    (Fv2.renderIntent d ui).labels = ui.labels ∧ (Fv2.renderIntent d ui).values = ui.values
      ∧ (Fv2.renderIntent d ui).alerts = ui.alerts := by
  unfold Fv2.renderIntent
  split_ifs <;> exact ⟨rfl, rfl, rfl⟩

/-- The basic alert block writes only the alert list and the alert count. -/
theorem basic_renderAlerts_frame (now : String) (logs : LogsField) (ui : UI) :
    (Basic.renderAlerts now logs ui).ui
      = { ui with
          alerts := (Basic.renderAlerts now logs ui).ui.alerts
          alertCount := (Basic.renderAlerts now logs ui).ui.alertCount } := by
  unfold Basic.renderAlerts
  cases logs with
  | missing => rfl
  | nonArray b => cases b <;> rfl
  | array es =>
    by_cases h : es.length > 0
    · simp only [h, if_true]
      split_ifs <;> rfl
    · simp only [h, if_false]

/-- The richer alert block writes only the alert list and the alert count. -/
theorem fv2_renderAlerts_frame (now : String) (logs : LogsField) (ui : UI) :
    (Fv2.renderAlerts now logs ui).ui
      = { ui with
          alerts := (Fv2.renderAlerts now logs ui).ui.alerts
          alertCount := (Fv2.renderAlerts now logs ui).ui.alertCount } := by
  unfold Fv2.renderAlerts
  cases logs with
  | missing => rfl
  | nonArray b => cases b <;> rfl
  | array es =>
    by_cases h : es.length > 0
    · simp only [h, if_true]
      split_ifs <;> rfl
    · simp only [h, if_false]

theorem basic_renderAlerts_chart (now : String) (logs : LogsField) (ui : UI) :
    (Basic.renderAlerts now logs ui).ui.labels = ui.labels
      ∧ (Basic.renderAlerts now logs ui).ui.values = ui.values := by
  rw [basic_renderAlerts_frame]
  exact ⟨rfl, rfl⟩

theorem fv2_renderAlerts_chart (now : String) (logs : LogsField) (ui : UI) :
    (Fv2.renderAlerts now logs ui).ui.labels = ui.labels
      ∧ (Fv2.renderAlerts now logs ui).ui.values = ui.values := by
  rw [fv2_renderAlerts_frame]
  exact ⟨rfl, rfl⟩

/-- The basic callback on a well-formed entry. -/
theorem basic_alertStep_wellFormed (now : String) (l : LogEntry) (acc : List Item) :
    Basic.alertStep now (some l.toRaw) acc
      = if l.is_threat then some (Item.alert l.toRaw now :: acc) else some acc := by
  cases h : l.is_threat <;> simp [Basic.alertStep, LogEntry.toRaw, h]

/-- The richer callback on a well-formed entry. -/
theorem fv2_alertStep_wellFormed (now : String) (l : LogEntry) (acc : List Item) :
    Fv2.alertStep now (some l.toRaw) acc
      = if Fv2.qualifies l.toRaw then some (Item.alert l.toRaw now :: acc) else some acc := by
  cases h : Fv2.qualifies l.toRaw
  · simp [Fv2.alertStep, h]
  · simp only [Fv2.alertStep, h, if_true]
    rfl

/-- On well-formed entries the basic loop never throws and leaves the threats
of the batch in front, the last one first. -/
theorem basic_forEach_wellFormed (now : String) (logs : List LogEntry) (acc : List Item) :
    forEachAlert (Basic.alertStep now) (logs.map (fun l => some l.toRaw)) acc
      = (((logs.filter (fun l => l.is_threat)).map
            (fun l => Item.alert l.toRaw now)).reverse ++ acc, false) := by
  induction logs generalizing acc with
  | nil => rfl
  | cons l ls ih =>
    rw [List.map_cons, forEachAlert, basic_alertStep_wellFormed]
    by_cases hq : l.is_threat = true
    · simp [hq, ih, List.filter_cons]
    · simp [hq, ih, List.filter_cons]

/-- On well-formed entries the richer loop never throws and leaves the
qualifying entries in front, the last one first. -/
theorem fv2_forEach_wellFormed (now : String) (logs : List LogEntry) (acc : List Item) :
    forEachAlert (Fv2.alertStep now) (logs.map (fun l => some l.toRaw)) acc
      = (((logs.filter (fun l => Fv2.qualifies l.toRaw)).map
            (fun l => Item.alert l.toRaw now)).reverse ++ acc, false) := by
  induction logs generalizing acc with
  | nil => rfl
  | cons l ls ih =>
    rw [List.map_cons, forEachAlert, fv2_alertStep_wellFormed]
    by_cases hq : Fv2.qualifies l.toRaw = true
    · simp [hq, ih, List.filter_cons]
    · simp [hq, ih, List.filter_cons]

/-- The basic `updateUI` completes on every well-formed result. -/
theorem basic_updateUI_completes (now : String) (r : AnalysisResult) (ui : UI) :
    (Basic.updateUI now r.toPayload ui).threw = false := by
  simp only [Basic.updateUI, AnalysisResult.toPayload, Basic.renderAlerts, wellFormedLogs,
    basic_forEach_wellFormed]
  split_ifs <;> first | rfl | simp_all

/-- The richer `updateUI` completes on every well-formed result. -/
theorem fv2_updateUI_completes (now : String) (r : AnalysisResult) (ui : UI) :
    (Fv2.updateUI now r.toPayload ui).threw = false := by
  simp only [Fv2.updateUI, AnalysisResult.toPayload, Fv2.renderAlerts, wellFormedLogs,
    ← List.map_take, fv2_forEach_wellFormed]
  split_ifs <;> first | rfl | simp_all

/-- On a well-formed result the basic `updateUI` leaves the chart that one
`chartPush 20` makes of the prior chart. -/
theorem basic_updateUI_chart (now : String) (r : AnalysisResult) (ui : UI) :
    (Basic.updateUI now r.toPayload ui).ui.labels
        = (if 20 < ui.labels.length + 1 then (ui.labels ++ [now]).tail else ui.labels ++ [now])
      ∧ (Basic.updateUI now r.toPayload ui).ui.values
        = (if 20 < ui.labels.length + 1 then (ui.values ++ [r.average_drift]).tail
            else ui.values ++ [r.average_drift]) := by
  simp only [Basic.updateUI, AnalysisResult.toPayload, (basic_renderAlerts_chart _ _ _).1,
    (basic_renderAlerts_chart _ _ _).2, chartPush_labels, chartPush_values, renderThreat_labels,
    renderThreat_values, (basic_renderIntent_chart _ _).1, (basic_renderIntent_chart _ _).2.1]
  simp

/-- On a well-formed result the richer `updateUI` leaves the chart that one
`chartPush 100` makes of the prior chart. -/
theorem fv2_updateUI_chart (now : String) (r : AnalysisResult) (ui : UI) :
    (Fv2.updateUI now r.toPayload ui).ui.labels
        = (if 100 < ui.labels.length + 1 then (ui.labels ++ [now]).tail else ui.labels ++ [now])
      ∧ (Fv2.updateUI now r.toPayload ui).ui.values
        = (if 100 < ui.labels.length + 1 then (ui.values ++ [r.average_drift]).tail
            else ui.values ++ [r.average_drift]) := by
  simp only [Fv2.updateUI, AnalysisResult.toPayload, (fv2_renderAlerts_chart _ _ _).1,
    (fv2_renderAlerts_chart _ _ _).2, chartPush_labels, chartPush_values, renderThreat_labels,
    renderThreat_values, (fv2_renderIntent_chart _ _).1, (fv2_renderIntent_chart _ _).2.1]
  simp

/-- A run of steps that each push one point and shift when the labels exceed
`bound` keeps the last `bound` points of the prior buffer followed by the
arrivals. -/
theorem chart_run (bound : Nat) (step : String × AnalysisResult → UI → UI)
    (hstep : ∀ c u, (step c u).labels
        = (if bound < u.labels.length + 1 then (u.labels ++ [c.1]).tail else u.labels ++ [c.1])
      ∧ (step c u).values
        = (if bound < u.labels.length + 1 then (u.values ++ [c.2.average_drift]).tail
            else u.values ++ [c.2.average_drift]))
    (calls : List (String × AnalysisResult)) (ui : UI)
    (hlen : ui.labels.length = ui.values.length) (hb : ui.labels.length ≤ bound) :
    (calls.foldl (fun u c => step c u) ui).labels
        = (ui.labels ++ calls.map (fun c => c.1)).drop (ui.labels.length + calls.length - bound)
      ∧ (calls.foldl (fun u c => step c u) ui).values
        = (ui.values ++ calls.map (fun c => c.2.average_drift)).drop
            (ui.labels.length + calls.length - bound) := by
  induction calls generalizing ui with
  | nil =>
    have h0 : ui.labels.length - bound = 0 := by omega
    simp [h0]
  | cons c cs ih =>
    obtain ⟨hl, hv⟩ := hstep c ui
    simp only [List.foldl_cons, List.map_cons, List.length_cons]
    by_cases hfull : bound < ui.labels.length + 1
    · have hN : ui.labels.length = bound := by omega
      rw [if_pos hfull] at hl hv
      have hl1 : (step c ui).labels.length = bound := by
        rw [hl]; simp; omega
      have hv1 : (step c ui).values.length = bound := by
        rw [hv]; simp; omega
      obtain ⟨ihl, ihv⟩ := ih (step c ui) (by omega) (by omega)
      rw [ihl, ihv, hl1, hl, hv]
      have e1 : bound + cs.length - bound = cs.length := by omega
      have e2 : ui.labels.length + (cs.length + 1) - bound = cs.length + 1 := by omega
      rw [e1, e2, tail_append_drop _ _ _ (by simp), tail_append_drop _ _ _ (by simp)]
      simp
    · rw [if_neg hfull] at hl hv
      have hl1 : (step c ui).labels.length = ui.labels.length + 1 := by
        rw [hl]; simp
      have hv1 : (step c ui).values.length = ui.values.length + 1 := by
        rw [hv]; simp
      obtain ⟨ihl, ihv⟩ := ih (step c ui) (by omega) (by omega)
      rw [ihl, ihv, hl1, hl, hv]
      have e : ui.labels.length + 1 + cs.length = ui.labels.length + (cs.length + 1) := by omega
      rw [e]
      simp

end PhaseLemmas

/-- C1: in both variants (bound 20 in the basic script, 100 in the richer one),
one `updateUI` call on a chart buffer with equally long labels and values, of
length at most the bound, completes and leaves `min (length + 1) bound` points:
the prior buffer with `(now, average_drift)` appended and, exactly when the
prior length was the bound, its first point removed; labels and values keep
the same length.  A run of `k` calls from the freshly created (empty) chart
holds the last `min k bound` arrivals in arrival order. -/
theorem C1_chart_buffer_fifo (uiB uiF : UI) (now : String) (r : AnalysisResult)
    (calls : List (String × AnalysisResult))
    (hB : uiB.labels.length = uiB.values.length) (hB20 : uiB.labels.length ≤ 20)
    (hF : uiF.labels.length = uiF.values.length) (hF100 : uiF.labels.length ≤ 100) :
    ((Basic.updateUI now r.toPayload uiB).threw = false
      ∧ (Basic.updateUI now r.toPayload uiB).ui.labels.length = min (uiB.labels.length + 1) 20
      ∧ (Basic.updateUI now r.toPayload uiB).ui.values.length
          = (Basic.updateUI now r.toPayload uiB).ui.labels.length
      ∧ (Basic.updateUI now r.toPayload uiB).ui.labels
          = (if uiB.labels.length = 20 then (uiB.labels ++ [now]).tail else uiB.labels ++ [now])
      ∧ (Basic.updateUI now r.toPayload uiB).ui.values
          = (if uiB.labels.length = 20 then (uiB.values ++ [r.average_drift]).tail
              else uiB.values ++ [r.average_drift]))
    ∧ ((Fv2.updateUI now r.toPayload uiF).threw = false
      ∧ (Fv2.updateUI now r.toPayload uiF).ui.labels.length = min (uiF.labels.length + 1) 100
      ∧ (Fv2.updateUI now r.toPayload uiF).ui.values.length
          = (Fv2.updateUI now r.toPayload uiF).ui.labels.length
      ∧ (Fv2.updateUI now r.toPayload uiF).ui.labels
          = (if uiF.labels.length = 100 then (uiF.labels ++ [now]).tail else uiF.labels ++ [now])
      ∧ (Fv2.updateUI now r.toPayload uiF).ui.values
          = (if uiF.labels.length = 100 then (uiF.values ++ [r.average_drift]).tail
              else uiF.values ++ [r.average_drift]))
    ∧ ((Basic.updates calls (Basic.initChart uiB)).labels
          = (calls.map (fun c => c.1)).drop (calls.length - 20)
      ∧ (Basic.updates calls (Basic.initChart uiB)).values
          = (calls.map (fun c => c.2.average_drift)).drop (calls.length - 20)
      ∧ (Basic.updates calls (Basic.initChart uiB)).labels.length = min calls.length 20)
    ∧ ((Fv2.updates calls (Fv2.newChart uiF)).labels
          = (calls.map (fun c => c.1)).drop (calls.length - 100)
      ∧ (Fv2.updates calls (Fv2.newChart uiF)).values
          = (calls.map (fun c => c.2.average_drift)).drop (calls.length - 100)
      ∧ (Fv2.updates calls (Fv2.newChart uiF)).labels.length = min calls.length 100) := by
  obtain ⟨bl, bv⟩ := basic_updateUI_chart now r uiB
  obtain ⟨fl, fv⟩ := fv2_updateUI_chart now r uiF
  have runB := chart_run 20 (fun c u => (Basic.updateUI c.1 c.2.toPayload u).ui)
    (fun c u => basic_updateUI_chart c.1 c.2 u) calls (Basic.initChart uiB) rfl
    (Nat.zero_le _)
  have runF := chart_run 100 (fun c u => (Fv2.updateUI c.1 c.2.toPayload u).ui)
    (fun c u => fv2_updateUI_chart c.1 c.2 u) calls (Fv2.newChart uiF) rfl
    (Nat.zero_le _)
  have eB : (Basic.initChart uiB).labels = [] ∧ (Basic.initChart uiB).values = [] := ⟨rfl, rfl⟩
  have eF : (Fv2.newChart uiF).labels = [] ∧ (Fv2.newChart uiF).values = [] := ⟨rfl, rfl⟩
  rw [eB.1, eB.2] at runB
  rw [eF.1, eF.2] at runF
  simp only [List.length_nil, Nat.zero_add, List.nil_append] at runB runF
  refine ⟨⟨basic_updateUI_completes now r uiB, ?_, ?_, ?_, ?_⟩,
    ⟨fv2_updateUI_completes now r uiF, ?_, ?_, ?_, ?_⟩, ⟨runB.1, runB.2, ?_⟩,
    ⟨runF.1, runF.2, ?_⟩⟩
  · rw [bl]; split_ifs <;> simp <;> omega
  · rw [bl, bv]; split_ifs <;> simp <;> omega
  · rw [bl]; split_ifs <;> first | rfl | omega
  · rw [bv]; split_ifs <;> first | rfl | omega
  · rw [fl]; split_ifs <;> simp <;> omega
  · rw [fl, fv]; split_ifs <;> simp <;> omega
  · rw [fl]; split_ifs <;> first | rfl | omega
  · rw [fv]; split_ifs <;> first | rfl | omega
  · unfold Basic.updates; rw [runB.1]; simp; omega
  · unfold Fv2.updates; rw [runF.1]; simp; omega

theorem C1_chart_buffer_fifo_witness :
    examplePage.labels.length = examplePage.values.length ∧ examplePage.labels.length ≤ 20
      ∧ (Basic.updateUI "12:00:00" exampleResult.toPayload examplePage).ui.labels
          = (if examplePage.labels.length = 20 then (examplePage.labels ++ ["12:00:00"]).tail
              else examplePage.labels ++ ["12:00:00"]) :=
  ⟨rfl, Nat.zero_le _,
    (C1_chart_buffer_fifo examplePage examplePage "12:00:00" exampleResult [] rfl (Nat.zero_le _)
      rfl (Nat.zero_le _)).1.2.2.2.1⟩

/-! ## The history preload -/

/-- The preload appends, in order, one label and one value per history point. -/
theorem fv2_loadHistory_json (f : String → String) (history : List HistoryPoint) (ui : UI) :
    (Fv2.loadHistory f (Fetch.json history) ui).labels
        = ui.labels ++ history.map (fun p => f p.timestamp)
      ∧ (Fv2.loadHistory f (Fetch.json history) ui).values
        = ui.values ++ history.map (fun p => p.drift_score) := by
  unfold Fv2.loadHistory
  induction history generalizing ui with
  | nil => simp
  | cons p ps ih =>
    simp only [List.foldl_cons, List.map_cons]
    obtain ⟨h1, h2⟩ := ih
      { ui with labels := ui.labels ++ [f p.timestamp], values := ui.values ++ [p.drift_score] }
    simp only at h1 h2
    rw [h1, h2]
    simp

/-- Once the chart holds at least a hundred labels, `updateUI` keeps their
number: each call pushes one point and shifts one. -/
theorem fv2_updates_length_of_full (calls : List (String × AnalysisResult)) (ui : UI)
    (h : 100 ≤ ui.labels.length) :
    (Fv2.updates calls ui).labels.length = ui.labels.length := by
  unfold Fv2.updates
  induction calls generalizing ui with
  | nil => rfl
  | cons c cs ih =>
    simp only [List.foldl_cons]
    have hl := (fv2_updateUI_chart c.1 c.2 ui).1
    have hfull : 100 < ui.labels.length + 1 := by omega
    rw [if_pos hfull] at hl
    have hl1 : (Fv2.updateUI c.1 c.2.toPayload ui).ui.labels.length = ui.labels.length := by
      rw [hl]; simp
    rw [ih _ (by omega), hl1]

/-- After `initChart` the chart is the image of the history array. -/
theorem fv2_initChart_json (f : String → String) (history : List HistoryPoint) (ui : UI) :
    (Fv2.initChart f (Fetch.json history) ui).values = history.map (fun p => p.drift_score)
      ∧ (Fv2.initChart f (Fetch.json history) ui).labels
        = history.map (fun p => f p.timestamp) := by
  obtain ⟨hl, hv⟩ := fv2_loadHistory_json f history (Fv2.newChart ui)
  unfold Fv2.initChart
  rw [hl, hv]
  simp [Fv2.newChart]

/-- C9: on any page, `initChart` with a history array `h_1 .. h_n` leaves the
chart values `[h_1.drift_score, .., h_n.drift_score]` and the labels the
formatted timestamps of `h_1 .. h_n`, in the same order and both of length
`n`; nothing is reordered, dropped or deduplicated. -/
theorem C9_history_preload_order (toLocaleTimeString : String → String)
    (history : List HistoryPoint) (ui : UI) :
    (Fv2.initChart toLocaleTimeString (Fetch.json history) ui).values
        = history.map (fun p => p.drift_score)
      ∧ (Fv2.initChart toLocaleTimeString (Fetch.json history) ui).labels
        = history.map (fun p => toLocaleTimeString p.timestamp)
      ∧ (Fv2.initChart toLocaleTimeString (Fetch.json history) ui).values.length = history.length
      ∧ (Fv2.initChart toLocaleTimeString (Fetch.json history) ui).labels.length
          = history.length := by
  obtain ⟨hv, hl⟩ := fv2_initChart_json toLocaleTimeString history ui
  refine ⟨hv, hl, ?_, ?_⟩
  · rw [hv, List.length_map]
  · rw [hl, List.length_map]

/-- C2 (the code at the failing input): a history of 101 points makes
`initChart` leave 101 chart labels and values, above the bound of 100, and
every later run of `updateUI` calls keeps 101 labels. -/
theorem C2_history_preload_exceeds_bound (calls : List (String × AnalysisResult)) :
    (Fv2.initChart id (Fetch.json (List.replicate 101 examplePoint)) examplePage).labels.length
        = 101
      ∧ (Fv2.initChart id (Fetch.json (List.replicate 101 examplePoint)) examplePage).values.length
        = 101
      ∧ (Fv2.updates calls
          (Fv2.initChart id (Fetch.json (List.replicate 101 examplePoint)) examplePage)).labels.length
        = 101 := by
  obtain ⟨hv, hl⟩ := fv2_initChart_json id (List.replicate 101 examplePoint) examplePage
  have hln : (Fv2.initChart id (Fetch.json (List.replicate 101 examplePoint))
      examplePage).labels.length = 101 := by
    rw [hl, List.length_map, List.length_replicate]
  have hvn : (Fv2.initChart id (Fetch.json (List.replicate 101 examplePoint))
      examplePage).values.length = 101 := by
    rw [hv, List.length_map, List.length_replicate]
  refine ⟨hln, hvn, ?_⟩
  rw [fv2_updates_length_of_full calls _ (by omega), hln]

/-! ## The risk tiers -/

/-- With a positive number of events the percentage is the finite number
`100 * threat_count / total_analyzed`. -/
theorem threatProb_of_pos (tc ta : Int) (h : 0 < ta) :
    (JsNum.divInt tc ta).times100 = JsNum.fin (100 * (tc : ℚ) / (ta : ℚ)) := by
  have hne : ta ≠ 0 := by omega
  simp only [JsNum.divInt, hne, if_false, JsNum.times100]
  congr 1
  ring

/-- The classes `renderThreat` writes for a finite percentage. -/
theorem renderThreat_fin (q : ℚ) (ui : UI) :
    (renderThreat (JsNum.fin q) ui).threatProb = Text.fixedPct (JsNum.fin q) 1
      ∧ (renderThreat (JsNum.fin q) ui).progressWidth = Text.pct (JsNum.fin q)
      ∧ (renderThreat (JsNum.fin q) ui).threatClass
        = (if 15 < q then "stat-value threat-high"
            else if 5 < q then "stat-value threat-med" else "stat-value threat-low")
      ∧ (renderThreat (JsNum.fin q) ui).progressClass
        = (if 15 < q then "progress-bar bg-danger"
            else if 5 < q then "progress-bar bg-warning" else "progress-bar bg-success") := by
  unfold renderThreat
  by_cases h1 : 15 < q
  · simp [JsNum.gt, h1]
  · by_cases h2 : 5 < q
    · simp [JsNum.gt, h1, h2]
    · simp [JsNum.gt, h1, h2]

/-- What the chart and alert blocks leave of the tiles written before them. -/
theorem chartPush_tiles (bound : Nat) (now : String) (v : ℚ) (ui : UI) :
    (chartPush bound now v ui).threatProb = ui.threatProb
      ∧ (chartPush bound now v ui).progressWidth = ui.progressWidth
      ∧ (chartPush bound now v ui).threatClass = ui.threatClass
      ∧ (chartPush bound now v ui).progressClass = ui.progressClass
      ∧ (chartPush bound now v ui).intentText = ui.intentText
      ∧ (chartPush bound now v ui).intentClass = ui.intentClass := by
  unfold chartPush
  by_cases h : bound < ui.labels.length + 1 <;> simp [h]

theorem basic_renderAlerts_tiles (now : String) (logs : LogsField) (ui : UI) :
    (Basic.renderAlerts now logs ui).ui.threatProb = ui.threatProb
      ∧ (Basic.renderAlerts now logs ui).ui.progressWidth = ui.progressWidth
      ∧ (Basic.renderAlerts now logs ui).ui.threatClass = ui.threatClass
      ∧ (Basic.renderAlerts now logs ui).ui.progressClass = ui.progressClass
      ∧ (Basic.renderAlerts now logs ui).ui.intentText = ui.intentText
      ∧ (Basic.renderAlerts now logs ui).ui.intentClass = ui.intentClass := by
  rw [basic_renderAlerts_frame]
  exact ⟨rfl, rfl, rfl, rfl, rfl, rfl⟩

theorem fv2_renderAlerts_tiles (now : String) (logs : LogsField) (ui : UI) :
    (Fv2.renderAlerts now logs ui).ui.threatProb = ui.threatProb
      ∧ (Fv2.renderAlerts now logs ui).ui.progressWidth = ui.progressWidth
      ∧ (Fv2.renderAlerts now logs ui).ui.threatClass = ui.threatClass
      ∧ (Fv2.renderAlerts now logs ui).ui.progressClass = ui.progressClass
      ∧ (Fv2.renderAlerts now logs ui).ui.intentText = ui.intentText
      ∧ (Fv2.renderAlerts now logs ui).ui.intentClass = ui.intentClass := by
  rw [fv2_renderAlerts_frame]
  exact ⟨rfl, rfl, rfl, rfl, rfl, rfl⟩

theorem renderThreat_intent (t : JsNum) (ui : UI) :
    (renderThreat t ui).intentText = ui.intentText
      ∧ (renderThreat t ui).intentClass = ui.intentClass := by
  unfold renderThreat
  split_ifs <;> exact ⟨rfl, rfl⟩

/-- The threat tile after the basic `updateUI`, for a positive event count. -/
theorem basic_updateUI_threat (now : String) (r : AnalysisResult) (ui : UI)
    (h : 0 < r.total_analyzed) :
    (Basic.updateUI now r.toPayload ui).ui.threatProb
        = Text.fixedPct (JsNum.fin (100 * (r.threat_count : ℚ) / (r.total_analyzed : ℚ))) 1
      ∧ (Basic.updateUI now r.toPayload ui).ui.progressWidth
        = Text.pct (JsNum.fin (100 * (r.threat_count : ℚ) / (r.total_analyzed : ℚ)))
      ∧ (Basic.updateUI now r.toPayload ui).ui.threatClass
        = (if 15 < 100 * (r.threat_count : ℚ) / (r.total_analyzed : ℚ) then "stat-value threat-high"
            else if 5 < 100 * (r.threat_count : ℚ) / (r.total_analyzed : ℚ)
              then "stat-value threat-med" else "stat-value threat-low")
      ∧ (Basic.updateUI now r.toPayload ui).ui.progressClass
        = (if 15 < 100 * (r.threat_count : ℚ) / (r.total_analyzed : ℚ) then "progress-bar bg-danger"
            else if 5 < 100 * (r.threat_count : ℚ) / (r.total_analyzed : ℚ)
              then "progress-bar bg-warning" else "progress-bar bg-success") := by
  simp only [Basic.updateUI, AnalysisResult.toPayload, threatProb_of_pos _ _ h]
  obtain ⟨a1, a2, a3, a4, _, _⟩ := basic_renderAlerts_tiles now (wellFormedLogs r.logs)
    (chartPush 20 now r.average_drift
      (renderThreat (JsNum.fin (100 * (r.threat_count : ℚ) / (r.total_analyzed : ℚ)))
        (Basic.renderIntent r.toPayload
          { ui with
            driftScore := Text.fixed (JsNum.fin r.average_drift) 4
            eventsCount := ui.eventsCount + r.total_analyzed })))
  obtain ⟨c1, c2, c3, c4, _, _⟩ := chartPush_tiles 20 now r.average_drift
    (renderThreat (JsNum.fin (100 * (r.threat_count : ℚ) / (r.total_analyzed : ℚ)))
      (Basic.renderIntent r.toPayload
        { ui with
          driftScore := Text.fixed (JsNum.fin r.average_drift) 4
          eventsCount := ui.eventsCount + r.total_analyzed }))
  obtain ⟨t1, t2, t3, t4⟩ := renderThreat_fin
    (100 * (r.threat_count : ℚ) / (r.total_analyzed : ℚ))
    (Basic.renderIntent r.toPayload
      { ui with
        driftScore := Text.fixed (JsNum.fin r.average_drift) 4
        eventsCount := ui.eventsCount + r.total_analyzed })
  exact ⟨a1.trans (c1.trans t1), a2.trans (c2.trans t2), a3.trans (c3.trans t3),
    a4.trans (c4.trans t4)⟩

/-- The threat tile after the richer `updateUI`, for a positive event count. -/
theorem fv2_updateUI_threat (now : String) (r : AnalysisResult) (ui : UI)
    (h : 0 < r.total_analyzed) :
    (Fv2.updateUI now r.toPayload ui).ui.threatProb
        = Text.fixedPct (JsNum.fin (100 * (r.threat_count : ℚ) / (r.total_analyzed : ℚ))) 1
      ∧ (Fv2.updateUI now r.toPayload ui).ui.progressWidth
        = Text.pct (JsNum.fin (100 * (r.threat_count : ℚ) / (r.total_analyzed : ℚ)))
      ∧ (Fv2.updateUI now r.toPayload ui).ui.threatClass
        = (if 15 < 100 * (r.threat_count : ℚ) / (r.total_analyzed : ℚ) then "stat-value threat-high"
            else if 5 < 100 * (r.threat_count : ℚ) / (r.total_analyzed : ℚ)
              then "stat-value threat-med" else "stat-value threat-low")
      ∧ (Fv2.updateUI now r.toPayload ui).ui.progressClass
        = (if 15 < 100 * (r.threat_count : ℚ) / (r.total_analyzed : ℚ) then "progress-bar bg-danger"
            else if 5 < 100 * (r.threat_count : ℚ) / (r.total_analyzed : ℚ)
              then "progress-bar bg-warning" else "progress-bar bg-success") := by
  have hgt : r.total_analyzed > 0 := h
  simp only [Fv2.updateUI, Fv2.threatProb, AnalysisResult.toPayload, hgt, if_true,
    threatProb_of_pos _ _ h]
  obtain ⟨a1, a2, a3, a4, _, _⟩ := fv2_renderAlerts_tiles now (wellFormedLogs r.logs)
    (chartPush 100 now r.average_drift
      (renderThreat (JsNum.fin (100 * (r.threat_count : ℚ) / (r.total_analyzed : ℚ)))
        (Fv2.renderIntent r.toPayload
          { ui with
            driftScore := Text.fixed (JsNum.fin r.average_drift) 4
            eventsCount := ui.eventsCount + r.total_analyzed })))
  obtain ⟨c1, c2, c3, c4, _, _⟩ := chartPush_tiles 100 now r.average_drift
    (renderThreat (JsNum.fin (100 * (r.threat_count : ℚ) / (r.total_analyzed : ℚ)))
      (Fv2.renderIntent r.toPayload
        { ui with
          driftScore := Text.fixed (JsNum.fin r.average_drift) 4
          eventsCount := ui.eventsCount + r.total_analyzed }))
  obtain ⟨t1, t2, t3, t4⟩ := renderThreat_fin
    (100 * (r.threat_count : ℚ) / (r.total_analyzed : ℚ))
    (Fv2.renderIntent r.toPayload
      { ui with
        driftScore := Text.fixed (JsNum.fin r.average_drift) 4
        eventsCount := ui.eventsCount + r.total_analyzed })
  exact ⟨a1.trans (c1.trans t1), a2.trans (c2.trans t2), a3.trans (c3.trans t3),
    a4.trans (c4.trans t4)⟩

/-- Reading the tier back from the two class names. -/
theorem tier_of_classes (q : ℚ) (cls bar : String)
    (hc : cls = (if 15 < q then "stat-value threat-high"
      else if 5 < q then "stat-value threat-med" else "stat-value threat-low"))
    (hb : bar = (if 15 < q then "progress-bar bg-danger"
      else if 5 < q then "progress-bar bg-warning" else "progress-bar bg-success")) :
    ((cls = "stat-value threat-high" ∧ bar = "progress-bar bg-danger") ↔ 15 < q)
      ∧ ((cls = "stat-value threat-med" ∧ bar = "progress-bar bg-warning") ↔ (5 < q ∧ q ≤ 15))
      ∧ ((cls = "stat-value threat-low" ∧ bar = "progress-bar bg-success") ↔ q ≤ 5) := by
  subst hc hb
  by_cases h1 : 15 < q
  · have h2 : ¬ q ≤ 15 := not_le.mpr h1
    have h3 : ¬ q ≤ 5 := by intro h; linarith
    simp [h1, h2, h3]
  · by_cases h2 : 5 < q
    · have h3 : ¬ q ≤ 5 := not_le.mpr h2
      have h4 : q ≤ 15 := not_lt.mp h1
      simp [h1, h2, h3, h4]
    · have h3 : q ≤ 5 := not_lt.mp h2
      simp [h1, h2, h3]

/-- C7: in both variants, for every `threat_count` and every positive
`total_analyzed`, `updateUI` writes the percentage
`100 * threat_count / total_analyzed` (exact arithmetic) into the threat tile
and the bar width, and sets the classes of tier high iff the percentage
exceeds 15, medium iff it lies in (5, 15], low iff it is at most 5.  With 3
threats among 20 events the percentage is 15 and the tier is medium. -/
theorem C7_threat_tier (now : String) (r : AnalysisResult) (uiB uiF : UI)
    (h : 0 < r.total_analyzed) :
    ((Basic.updateUI now r.toPayload uiB).ui.threatProb
          = Text.fixedPct (JsNum.fin (threatPercent r)) 1
      ∧ (Basic.updateUI now r.toPayload uiB).ui.progressWidth = Text.pct (JsNum.fin (threatPercent r))
      ∧ (((Basic.updateUI now r.toPayload uiB).ui.threatClass = "stat-value threat-high"
            ∧ (Basic.updateUI now r.toPayload uiB).ui.progressClass = "progress-bar bg-danger")
          ↔ 15 < threatPercent r)
      ∧ (((Basic.updateUI now r.toPayload uiB).ui.threatClass = "stat-value threat-med"
            ∧ (Basic.updateUI now r.toPayload uiB).ui.progressClass = "progress-bar bg-warning")
          ↔ (5 < threatPercent r ∧ threatPercent r ≤ 15))
      ∧ (((Basic.updateUI now r.toPayload uiB).ui.threatClass = "stat-value threat-low"
            ∧ (Basic.updateUI now r.toPayload uiB).ui.progressClass = "progress-bar bg-success")
          ↔ threatPercent r ≤ 5))
    ∧ ((Fv2.updateUI now r.toPayload uiF).ui.threatProb
          = Text.fixedPct (JsNum.fin (threatPercent r)) 1
      ∧ (Fv2.updateUI now r.toPayload uiF).ui.progressWidth = Text.pct (JsNum.fin (threatPercent r))
      ∧ (((Fv2.updateUI now r.toPayload uiF).ui.threatClass = "stat-value threat-high"
            ∧ (Fv2.updateUI now r.toPayload uiF).ui.progressClass = "progress-bar bg-danger")
          ↔ 15 < threatPercent r)
      ∧ (((Fv2.updateUI now r.toPayload uiF).ui.threatClass = "stat-value threat-med"
            ∧ (Fv2.updateUI now r.toPayload uiF).ui.progressClass = "progress-bar bg-warning")
          ↔ (5 < threatPercent r ∧ threatPercent r ≤ 15))
      ∧ (((Fv2.updateUI now r.toPayload uiF).ui.threatClass = "stat-value threat-low"
            ∧ (Fv2.updateUI now r.toPayload uiF).ui.progressClass = "progress-bar bg-success")
          ↔ threatPercent r ≤ 5))
    ∧ (r.threat_count = 3 → r.total_analyzed = 20 →
        threatPercent r = 15
          ∧ (Basic.updateUI now r.toPayload uiB).ui.threatClass = "stat-value threat-med"
          ∧ (Basic.updateUI now r.toPayload uiB).ui.progressClass = "progress-bar bg-warning"
          ∧ (Fv2.updateUI now r.toPayload uiF).ui.threatClass = "stat-value threat-med"
          ∧ (Fv2.updateUI now r.toPayload uiF).ui.progressClass = "progress-bar bg-warning") := by
  obtain ⟨b1, b2, b3, b4⟩ := basic_updateUI_threat now r uiB h
  obtain ⟨f1, f2, f3, f4⟩ := fv2_updateUI_threat now r uiF h
  obtain ⟨tb1, tb2, tb3⟩ := tier_of_classes _ _ _ b3 b4
  obtain ⟨tf1, tf2, tf3⟩ := tier_of_classes _ _ _ f3 f4
  refine ⟨⟨b1, b2, tb1, tb2, tb3⟩, ⟨f1, f2, tf1, tf2, tf3⟩, ?_⟩
  intro h3 h20
  have hp : threatPercent r = 15 := by
    unfold threatPercent
    rw [h3, h20]
    norm_num
  have hmid : 5 < threatPercent r ∧ threatPercent r ≤ 15 := by
    rw [hp]; norm_num
  exact ⟨hp, (tb2.mpr hmid).1, (tb2.mpr hmid).2, (tf2.mpr hmid).1, (tf2.mpr hmid).2⟩

theorem C7_threat_tier_witness :
    (0 : Int) < exampleResult.total_analyzed
      ∧ threatPercent exampleResult = 15
      ∧ (Basic.updateUI "12:00:00" exampleResult.toPayload examplePage).ui.threatClass
          = "stat-value threat-med"
      ∧ (Fv2.updateUI "12:00:00" exampleResult.toPayload examplePage).ui.threatClass
          = "stat-value threat-med" :=
  have h := (C7_threat_tier "12:00:00" exampleResult examplePage examplePage (by decide)).2.2
    rfl rfl
  ⟨by decide, h.1, h.2.1, h.2.2.2.1⟩

/-- The label and class `Fv2.renderIntent` writes. -/
theorem fv2_renderIntent_tile (d : Payload) (ui : UI) :
    (Fv2.renderIntent d ui).intentText
        = (if 50 < d.forecast_prob then "CRITICAL"
            else if 20 < d.forecast_prob then "WARNING" else "NORMAL")
      ∧ (Fv2.renderIntent d ui).intentClass
        = (if 50 < d.forecast_prob then "stat-value text-danger"
            else if 20 < d.forecast_prob then "stat-value text-warning"
            else "stat-value text-success") := by
  unfold Fv2.renderIntent
  by_cases h1 : 50 < d.forecast_prob
  · have g1 : d.forecast_prob > 50 := h1
    simp [g1]
  · have g1 : ¬ d.forecast_prob > 50 := h1
    by_cases h2 : 20 < d.forecast_prob
    · have g2 : d.forecast_prob > 20 := h2
      simp [g1, g2]
    · have g2 : ¬ d.forecast_prob > 20 := h2
      simp [g1, g2]

/-- The intent tile after the richer `updateUI`. -/
theorem fv2_updateUI_intent (now : String) (r : AnalysisResult) (ui : UI) :
    (Fv2.updateUI now r.toPayload ui).ui.intentText
        = (if 50 < r.forecast_prob then "CRITICAL"
            else if 20 < r.forecast_prob then "WARNING" else "NORMAL")
      ∧ (Fv2.updateUI now r.toPayload ui).ui.intentClass
        = (if 50 < r.forecast_prob then "stat-value text-danger"
            else if 20 < r.forecast_prob then "stat-value text-warning"
            else "stat-value text-success") := by
  simp only [Fv2.updateUI, Fv2.threatProb, AnalysisResult.toPayload]
  obtain ⟨_, _, _, _, a5, a6⟩ := fv2_renderAlerts_tiles now (wellFormedLogs r.logs)
    (chartPush 100 now r.average_drift
      (renderThreat
        (if r.total_analyzed > 0 then (JsNum.divInt r.threat_count r.total_analyzed).times100
          else JsNum.fin 0)
        (Fv2.renderIntent r.toPayload
          { ui with
            driftScore := Text.fixed (JsNum.fin r.average_drift) 4
            eventsCount := ui.eventsCount + r.total_analyzed })))
  obtain ⟨_, _, _, _, c5, c6⟩ := chartPush_tiles 100 now r.average_drift
    (renderThreat
      (if r.total_analyzed > 0 then (JsNum.divInt r.threat_count r.total_analyzed).times100
        else JsNum.fin 0)
      (Fv2.renderIntent r.toPayload
        { ui with
          driftScore := Text.fixed (JsNum.fin r.average_drift) 4
          eventsCount := ui.eventsCount + r.total_analyzed }))
  obtain ⟨t5, t6⟩ := renderThreat_intent
    (if r.total_analyzed > 0 then (JsNum.divInt r.threat_count r.total_analyzed).times100
      else JsNum.fin 0)
    (Fv2.renderIntent r.toPayload
      { ui with
        driftScore := Text.fixed (JsNum.fin r.average_drift) 4
        eventsCount := ui.eventsCount + r.total_analyzed })
  obtain ⟨i5, i6⟩ := fv2_renderIntent_tile r.toPayload
    { ui with
      driftScore := Text.fixed (JsNum.fin r.average_drift) 4
      eventsCount := ui.eventsCount + r.total_analyzed }
  exact ⟨a5.trans (c5.trans (t5.trans i5)), a6.trans (c6.trans (t6.trans i6))⟩

/-- Reading the intent tier back from label and class. -/
theorem intent_of_label (p : ℚ) (txt cls : String)
    (ht : txt = (if 50 < p then "CRITICAL" else if 20 < p then "WARNING" else "NORMAL"))
    (hc : cls = (if 50 < p then "stat-value text-danger"
      else if 20 < p then "stat-value text-warning" else "stat-value text-success")) :
    ((txt = "CRITICAL" ∧ cls = "stat-value text-danger") ↔ 50 < p)
      ∧ ((txt = "WARNING" ∧ cls = "stat-value text-warning") ↔ (20 < p ∧ p ≤ 50))
      ∧ ((txt = "NORMAL" ∧ cls = "stat-value text-success") ↔ p ≤ 20)
      ∧ (txt = "CRITICAL" ∨ txt = "WARNING" ∨ txt = "NORMAL") := by
  subst ht hc
  by_cases h1 : 50 < p
  · have h2 : ¬ p ≤ 50 := not_le.mpr h1
    have h3 : ¬ p ≤ 20 := by intro h; linarith
    simp [h1, h2, h3]
  · by_cases h2 : 20 < p
    · have h3 : ¬ p ≤ 20 := not_le.mpr h2
      have h4 : p ≤ 50 := not_lt.mp h1
      simp [h1, h2, h3, h4]
    · have h3 : p ≤ 20 := not_lt.mp h2
      simp [h1, h2, h3]

/-- C8: in the richer variant, for every `forecast_prob` p, `updateUI` sets the
intent status to one of three labels: CRITICAL (text-danger) iff p > 50,
WARNING (text-warning) iff 20 < p <= 50, NORMAL (text-success) iff p <= 20.
With p = 25 the label is WARNING, and replacing `drift_slope` by any other
value changes neither the label nor its class. -/
theorem C8_intent_tier (now : String) (r : AnalysisResult) (ui : UI) (slope : ℚ) :
    ((((Fv2.updateUI now r.toPayload ui).ui.intentText = "CRITICAL"
          ∧ (Fv2.updateUI now r.toPayload ui).ui.intentClass = "stat-value text-danger")
        ↔ 50 < r.forecast_prob)
      ∧ (((Fv2.updateUI now r.toPayload ui).ui.intentText = "WARNING"
          ∧ (Fv2.updateUI now r.toPayload ui).ui.intentClass = "stat-value text-warning")
        ↔ (20 < r.forecast_prob ∧ r.forecast_prob ≤ 50))
      ∧ (((Fv2.updateUI now r.toPayload ui).ui.intentText = "NORMAL"
          ∧ (Fv2.updateUI now r.toPayload ui).ui.intentClass = "stat-value text-success")
        ↔ r.forecast_prob ≤ 20)
      ∧ ((Fv2.updateUI now r.toPayload ui).ui.intentText = "CRITICAL"
        ∨ (Fv2.updateUI now r.toPayload ui).ui.intentText = "WARNING"
        ∨ (Fv2.updateUI now r.toPayload ui).ui.intentText = "NORMAL"))
    ∧ ((Fv2.updateUI now { r with forecast_prob := 25 }.toPayload ui).ui.intentText = "WARNING"
      ∧ (Fv2.updateUI now { r with forecast_prob := 25 }.toPayload ui).ui.intentClass
          = "stat-value text-warning")
    ∧ ((Fv2.updateUI now { r with drift_slope := slope }.toPayload ui).ui.intentText
          = (Fv2.updateUI now r.toPayload ui).ui.intentText
      ∧ (Fv2.updateUI now { r with drift_slope := slope }.toPayload ui).ui.intentClass
          = (Fv2.updateUI now r.toPayload ui).ui.intentClass) := by
  obtain ⟨t, c⟩ := fv2_updateUI_intent now r ui
  obtain ⟨t25, c25⟩ := fv2_updateUI_intent now { r with forecast_prob := 25 } ui
  obtain ⟨ts, cs⟩ := fv2_updateUI_intent now { r with drift_slope := slope } ui
  refine ⟨intent_of_label _ _ _ t c, ⟨?_, ?_⟩, ⟨ts.trans t.symm, cs.trans c.symm⟩⟩
  · rw [t25]; norm_num
  · rw [c25]; norm_num

/-! ## The auto-monitor timer -/

/-- A tick finds no interval to fire when none is scheduled. -/
theorem ticks_of_no_timers (ids : List Nat) (p : Fv2.Page) (h : p.timers = []) :
    Fv2.ticks ids p = p := by
  unfold Fv2.ticks
  induction ids with
  | nil => rfl
  | cons i is ih =>
    have ht : Fv2.tick i p = p := by simp [Fv2.tick, h]
    rw [List.foldl_cons, ht, ih]

/-- C3: in the richer variant, from a state with no interval scheduled
(whatever `monitorInterval` holds), toggle-on creates one interval and invokes
`runAnalysis` once; a toggle-off with no tick in between cancels that
interval and resets `monitorInterval` to null, so that `runAnalysis` has been
invoked exactly once directly and not at all by the scheduler, and no later
tick invokes it. -/
theorem C3_toggle_on_off (p : Fv2.Page) (ids : List Nat)
    (hidle : p.timers = []) :
    ((Fv2.toggle true p).timers = [p.nextTimer]
      ∧ (Fv2.toggle true p).monitorInterval = some p.nextTimer
      ∧ (Fv2.toggle true p).directRuns = p.directRuns + 1)
    ∧ ((Fv2.toggle false (Fv2.toggle true p)).directRuns = p.directRuns + 1
      ∧ (Fv2.toggle false (Fv2.toggle true p)).tickRuns = p.tickRuns
      ∧ (Fv2.toggle false (Fv2.toggle true p)).timers = []
      ∧ (Fv2.toggle false (Fv2.toggle true p)).monitorInterval = none)
    ∧ ((Fv2.ticks ids (Fv2.toggle false (Fv2.toggle true p))).tickRuns = p.tickRuns
      ∧ (Fv2.ticks ids (Fv2.toggle false (Fv2.toggle true p))).directRuns = p.directRuns + 1) := by
  have hoff : (Fv2.toggle false (Fv2.toggle true p)).timers = [] := by
    simp [Fv2.toggle, hidle]
  rw [ticks_of_no_timers ids _ hoff]
  refine ⟨⟨?_, rfl, rfl⟩, ⟨rfl, rfl, hoff, rfl⟩, rfl, rfl⟩
  simp [Fv2.toggle, hidle]

theorem C3_toggle_on_off_witness :
    exampleIdle.timers = []
      ∧ (Fv2.ticks [1, 1, 2] (Fv2.toggle false (Fv2.toggle true exampleIdle))).tickRuns = 0
      ∧ (Fv2.ticks [1, 1, 2] (Fv2.toggle false (Fv2.toggle true exampleIdle))).directRuns = 1 :=
  ⟨rfl, (C3_toggle_on_off exampleIdle [1, 1, 2] rfl).2.2⟩

/-- One `change` event keeps `monitorInterval` the only scheduled interval,
provided it is not a toggle-on arriving while an interval is scheduled. -/
theorem toggle_keeps_single (e : Bool) (p : Fv2.Page)
    (hinv : p.timers = p.monitorInterval.toList)
    (hrel : ¬ (p.monitorInterval.isSome = true ∧ e = true)) :
    (Fv2.toggle e p).timers = (Fv2.toggle e p).monitorInterval.toList
      ∧ (Fv2.toggle e p).monitorInterval.isSome = e := by
  cases e with
  | true =>
    have hnone : p.monitorInterval = none := by
      cases hm : p.monitorInterval with
      | none => rfl
      | some id => exact absurd ⟨by simp [hm], rfl⟩ hrel
    simp [Fv2.toggle, hinv, hnone]
  | false =>
    cases hm : p.monitorInterval with
    | none => simp [Fv2.toggle, hinv, hm]
    | some id => simp [Fv2.toggle, hinv, hm]

/-- A run of `change` events in which no toggle-on directly follows a
toggle-on (nor arrives while an interval is scheduled at the start) keeps
`monitorInterval` the only scheduled interval; the interval is scheduled
exactly when the last event was a toggle-on. -/
theorem toggles_keep_single (events : List Bool) (p : Fv2.Page)
    (hinv : p.timers = p.monitorInterval.toList)
    (hchain : List.Chain (fun a b => ¬ (a = true ∧ b = true)) p.monitorInterval.isSome events) :
    (Fv2.toggles events p).timers = (Fv2.toggles events p).monitorInterval.toList
      ∧ (Fv2.toggles events p).monitorInterval.isSome
          = (events.getLast?).getD p.monitorInterval.isSome := by
  unfold Fv2.toggles
  induction events generalizing p with
  | nil => exact ⟨hinv, rfl⟩
  | cons e es ih =>
    rw [List.chain_cons] at hchain
    obtain ⟨h1, h2⟩ := toggle_keeps_single e p hinv hchain.1
    have hc : List.Chain (fun a b => ¬ (a = true ∧ b = true))
        (Fv2.toggle e p).monitorInterval.isSome es := by
      rw [h2]; exact hchain.2
    obtain ⟨i1, i2⟩ := ih (Fv2.toggle e p) h1 hc
    refine ⟨i1, ?_⟩
    simp only [List.foldl_cons]
    rw [i2, h2]
    cases es with
    | nil => rfl
    | cons x xs =>
      have hl : (x :: xs).getLast? = some ((x :: xs).getLast (by simp)) :=
        List.getLast?_eq_getLast _ _
      simp only [List.getLast?_cons_cons, hl, Option.getD_some]

/-- From the idle state, a run of `change` events without two toggle-ons in a
row keeps `monitorInterval` the only scheduled interval. -/
theorem idle_toggles_single (events : List Bool) (p : Fv2.Page)
    (hidle : p.timers = []) (hvar : p.monitorInterval = none)
    (halt : events.Chain' (fun a b => ¬ (a = true ∧ b = true))) :
    (Fv2.toggles events p).timers = (Fv2.toggles events p).monitorInterval.toList
      ∧ (Fv2.toggles events p).monitorInterval.isSome = (events.getLast?).getD false := by
  have hc : List.Chain (fun a b => ¬ (a = true ∧ b = true)) false events := by
    cases events with
    | nil => exact List.Chain.nil
    | cons e es => exact List.Chain.cons (by simp) halt
  have hs : p.monitorInterval.isSome = false := by rw [hvar]; rfl
  have h := toggles_keep_single events p (by rw [hidle, hvar]; rfl) (by rw [hs]; exact hc)
  rw [hs] at h
  exact h

/-- C10 (amended): in the richer variant, for every finite sequence of
auto-monitor `change` events in which no toggle-on directly follows another
toggle-on, starting from the idle state with `monitorInterval = null`, the
number of scheduled intervals is 1 if the most recent event was a toggle-on
and 0 otherwise; after every prefix of the sequence at most one interval is
scheduled; `monitorInterval` refers to the only scheduled interval; and after
a toggle-off no interval remains, so no tick invokes `runAnalysis`. -/
theorem C10_single_timer_alternating (events : List Bool) (p : Fv2.Page) (ids : List Nat)
    (k : Nat) (hidle : p.timers = []) (hvar : p.monitorInterval = none)
    (halt : events.Chain' (fun a b => ¬ (a = true ∧ b = true))) :
    (Fv2.toggles events p).timers.length = (if events.getLast? = some true then 1 else 0)
      ∧ (Fv2.toggles events p).timers = (Fv2.toggles events p).monitorInterval.toList
      ∧ (Fv2.toggles (events.take k) p).timers.length ≤ 1
      ∧ (events.getLast? = some false →
          (Fv2.toggles events p).timers = []
            ∧ (Fv2.toggles events p).monitorInterval = none
            ∧ (Fv2.ticks ids (Fv2.toggles events p)).tickRuns
                = (Fv2.toggles events p).tickRuns) := by
  obtain ⟨h1, h2⟩ := idle_toggles_single events p hidle hvar halt
  obtain ⟨k1, _⟩ := idle_toggles_single (events.take k) p hidle hvar (halt.take k)
  refine ⟨?_, h1, ?_, ?_⟩
  · rw [h1]
    cases hm : (Fv2.toggles events p).monitorInterval with
    | none =>
      rw [hm] at h2
      cases hl : events.getLast? with
      | none => simp
      | some b =>
        rw [hl] at h2
        cases b with
        | false => simp
        | true => simp at h2
    | some id =>
      rw [hm] at h2
      cases hl : events.getLast? with
      | none => rw [hl] at h2; simp at h2
      | some b =>
        rw [hl] at h2
        cases b with
        | false => simp at h2
        | true => simp
  · rw [k1]
    cases (Fv2.toggles (events.take k) p).monitorInterval <;> simp
  · intro hl
    rw [hl] at h2
    have hnone : (Fv2.toggles events p).monitorInterval = none := by
      cases hm : (Fv2.toggles events p).monitorInterval with
      | none => rfl
      | some id => rw [hm] at h2; simp at h2
    have hempty : (Fv2.toggles events p).timers = [] := by
      rw [h1, hnone]; rfl
    exact ⟨hempty, hnone, by rw [ticks_of_no_timers ids _ hempty]⟩

theorem C10_single_timer_alternating_witness :
    exampleIdle.timers = [] ∧ exampleIdle.monitorInterval = none
      ∧ [true, false, true].Chain' (fun a b => ¬ (a = true ∧ b = true))
      ∧ (Fv2.toggles [true, false, true] exampleIdle).timers.length
          = (if [true, false, true].getLast? = some true then 1 else 0) :=
  ⟨rfl, rfl, by simp,
    (C10_single_timer_alternating [true, false, true] exampleIdle [] 0 rfl rfl (by simp)).1⟩

/-- C10 (as stated, refuted): two toggle-on events in a row from the idle
state leave two scheduled intervals; a toggle-off then cancels only the second,
so that `monitorInterval` is null while interval 1 is still scheduled and its
tick invokes `runAnalysis`. -/
theorem C10_two_toggle_on_counterexample :
    (Fv2.toggles [true, true] exampleIdle).timers = [1, 2]
      ∧ (Fv2.toggles [true, true] exampleIdle).timers.length = 2
      ∧ (Fv2.toggles [true, true, false] exampleIdle).timers = [1]
      ∧ (Fv2.toggles [true, true, false] exampleIdle).monitorInterval = none
      ∧ (Fv2.tick 1 (Fv2.toggles [true, true, false] exampleIdle)).tickRuns = 1 := by
  refine ⟨rfl, rfl, ?_, rfl, ?_⟩ <;> decide

/-! ## The alert list -/

/-- The trimming loop keeps the first `cap` children. -/
theorem trimTo_eq_take (cap : Nat) (l : List Item) : Fv2.trimTo cap l = l.take cap := by
  generalize hn : l.length = n
  induction n generalizing l with
  | zero =>
    rw [Fv2.trimTo]
    have hl : l = [] := List.length_eq_zero.mp hn
    subst hl
    simp
  | succ n ih =>
    rw [Fv2.trimTo]
    by_cases hgt : l.length > cap
    · rw [dif_pos hgt, ih l.dropLast (by rw [List.length_dropLast, hn]; rfl)]
      rw [List.dropLast_eq_take, List.take_take]
      congr 1
      omega
    · rw [dif_neg hgt]
      exact (List.take_of_length_le (by omega)).symm

/-- The richer callback on any entry: it throws exactly on the entries
`entryThrows` names, and otherwise prepends the item of the entry, if any. -/
theorem fv2_alertStep_eq (now : String) (slot : Option RawLog) (acc : List Item) :
    Fv2.alertStep now slot acc
      = if Fv2.entryThrows slot then none
        else some ((Fv2.entryItem now slot).toList ++ acc) := by
  cases slot with
  | none => rfl
  | some log =>
    cases hq : Fv2.qualifies log with
    | false => simp [Fv2.alertStep, Fv2.entryThrows, Fv2.entryItem, hq]
    | true =>
      cases ha : log.action_type with
      | none => simp [Fv2.alertStep, Fv2.entryThrows, Fv2.entryItem, hq, ha]
      | some a =>
        cases hd : log.drift_score with
        | num q => simp [Fv2.alertStep, Fv2.entryThrows, Fv2.entryItem, hq, ha, hd]
        | other e => simp [Fv2.alertStep, Fv2.entryThrows, Fv2.entryItem, hq, ha, hd]

/-- The richer loop on any entries: it throws iff some entry throws, and it
leaves in front of the list the items of the entries before the first one
that throws, the last one first. -/
theorem fv2_forEach_eq (now : String) (es : List (Option RawLog)) (acc : List Item) :
    forEachAlert (Fv2.alertStep now) es acc
      = (((es.takeWhile (fun s => !Fv2.entryThrows s)).filterMap (Fv2.entryItem now)).reverse
          ++ acc, es.any Fv2.entryThrows) := by
  induction es generalizing acc with
  | nil => rfl
  | cons slot rest ih =>
    rw [forEachAlert, fv2_alertStep_eq]
    cases ht : Fv2.entryThrows slot with
    | true => simp [List.takeWhile_cons, ht]
    | false =>
      simp only [Bool.false_eq_true, if_false, ih, List.takeWhile_cons, ht, Bool.not_false,
        if_true, List.any_cons, Bool.false_or]
      cases hi : Fv2.entryItem now slot with
      | none => simp [List.filterMap_cons, hi]
      | some item => simp [List.filterMap_cons, hi]

/-- What the richer alert block reads of the page is its alert list. -/
theorem fv2_renderAlerts_congr (now : String) (logs : LogsField) (ui ui1 : UI)
    (h : ui.alerts = ui1.alerts) :
    (Fv2.renderAlerts now logs ui).ui.alerts = (Fv2.renderAlerts now logs ui1).ui.alerts
      ∧ (Fv2.renderAlerts now logs ui).threw = (Fv2.renderAlerts now logs ui1).threw := by
  unfold Fv2.renderAlerts
  cases logs with
  | missing => simp [h]
  | nonArray b => cases b <;> simp [h]
  | array es =>
    by_cases hl : es.length > 0
    · simp only [hl, if_true, h]
      split_ifs <;> simp
    · simp only [hl, if_false]
      simp [h]

/-- The alert list and the outcome of the richer `updateUI` on a payload with
`average_drift` are those of the alert block on the prior alert list. -/
theorem fv2_updateUI_alerts_eq (now : String) (d : Payload) (ui : UI) (a : ℚ)
    (ha : d.average_drift = some a) :
    (Fv2.updateUI now d ui).ui.alerts = (Fv2.renderAlerts now d.logs ui).ui.alerts
      ∧ (Fv2.updateUI now d ui).threw = (Fv2.renderAlerts now d.logs ui).threw := by
  unfold Fv2.updateUI
  rw [ha]
  exact fv2_renderAlerts_congr now d.logs _ ui
    (by rw [chartPush_alerts, renderThreat_alerts, (fv2_renderIntent_chart _ _).2.2])

/-- The alert list the basic alert block leaves on well-formed logs. -/
theorem basic_renderAlerts_alerts (now : String) (logs : List LogEntry) (ui : UI) :
    (Basic.renderAlerts now (wellFormedLogs logs) ui).ui.alerts
      = (if logs.length > 0 then
          ((logs.filter (fun l => l.is_threat)).map (fun l => Item.alert l.toRaw now)).reverse
            ++ (if ui.alerts.any Basic.itemIncludesMarker then [] else ui.alerts)
        else ui.alerts) := by
  simp only [Basic.renderAlerts, wellFormedLogs, basic_forEach_wellFormed, List.length_map]
  by_cases h : logs.length > 0
  · simp [h]
  · simp [h]

/-- The alert list the richer alert block leaves on well-formed logs. -/
theorem fv2_renderAlerts_alerts (now : String) (logs : List LogEntry) (ui : UI) :
    (Fv2.renderAlerts now (wellFormedLogs logs) ui).ui.alerts
      = (if logs.length > 0 then
          ((((logs.take 3).filter (fun l => Fv2.qualifies l.toRaw)).map
              (fun l => Item.alert l.toRaw now)).reverse
            ++ (if ui.alerts.any Fv2.itemIncludesMarker then [] else ui.alerts)).take 20
        else ui.alerts) := by
  simp only [Fv2.renderAlerts, wellFormedLogs, ← List.map_take, fv2_forEach_wellFormed,
    List.length_map, trimTo_eq_take]
  by_cases h : logs.length > 0
  · simp [h]
  · simp [h]

/-- The alert list after the basic `updateUI` on a well-formed result. -/
theorem basic_updateUI_alerts (now : String) (r : AnalysisResult) (ui : UI) :
    (Basic.updateUI now r.toPayload ui).ui.alerts
      = (if r.logs.length > 0 then
          ((r.logs.filter (fun l => l.is_threat)).map (fun l => Item.alert l.toRaw now)).reverse
            ++ (if ui.alerts.any Basic.itemIncludesMarker then [] else ui.alerts)
        else ui.alerts) := by
  simp only [Basic.updateUI, AnalysisResult.toPayload, basic_renderAlerts_alerts,
    chartPush_alerts, renderThreat_alerts, (basic_renderIntent_chart _ _).2.2]

/-- The alert list after the richer `updateUI` on a well-formed result. -/
theorem fv2_updateUI_alerts (now : String) (r : AnalysisResult) (ui : UI) :
    (Fv2.updateUI now r.toPayload ui).ui.alerts
      = (if r.logs.length > 0 then
          ((((r.logs.take 3).filter (fun l => Fv2.qualifies l.toRaw)).map
              (fun l => Item.alert l.toRaw now)).reverse
            ++ (if ui.alerts.any Fv2.itemIncludesMarker then [] else ui.alerts)).take 20
        else ui.alerts) := by
  simp only [Fv2.updateUI, AnalysisResult.toPayload, fv2_renderAlerts_alerts,
    chartPush_alerts, renderThreat_alerts, (fv2_renderIntent_chart _ _).2.2]

/-- A richer alert block that completes keeps an alert list of at most twenty
entries within twenty. -/
theorem fv2_renderAlerts_completes_le (now : String) (logs : LogsField) (ui : UI)
    (hdone : (Fv2.renderAlerts now logs ui).threw = false) (hle : ui.alerts.length ≤ 20) :
    (Fv2.renderAlerts now logs ui).ui.alerts.length ≤ 20 := by
  unfold Fv2.renderAlerts at hdone ⊢
  cases logs with
  | missing => simp at hdone
  | nonArray b =>
    cases b with
    | true => simp at hdone
    | false => exact hle
  | array es =>
    by_cases hl : es.length > 0
    · simp only [hl, if_true] at hdone ⊢
      cases ht : (forEachAlert (Fv2.alertStep now) (List.take 3 es)
          (if ui.alerts.any Fv2.itemIncludesMarker = true then [] else ui.alerts)).2 with
      | true =>
        rw [ht] at hdone
        simp at hdone
      | false =>
        simp only [ht, Bool.false_eq_true, if_false, trimTo_eq_take, List.length_take]
        exact Nat.min_le_left _ _
    · simp only [hl, if_false]
      exact hle

/-- A richer `updateUI` call that completes keeps an alert list of at most
twenty entries within twenty. -/
theorem fv2_updateUI_completes_le (now : String) (d : Payload) (ui : UI)
    (hdone : (Fv2.updateUI now d ui).threw = false) (hle : ui.alerts.length ≤ 20) :
    (Fv2.updateUI now d ui).ui.alerts.length ≤ 20 := by
  cases ha : d.average_drift with
  | none =>
    unfold Fv2.updateUI at hdone
    rw [ha] at hdone
    simp at hdone
  | some a =>
    obtain ⟨h1, h2⟩ := fv2_updateUI_alerts_eq now d ui a ha
    rw [h1]
    exact fv2_renderAlerts_completes_le now d.logs ui (by rw [← h2]; exact hdone) hle

/-- A run in which no call threw started from an outcome that had not
thrown. -/
theorem fv2_foldl_threw (calls : List (String × Payload)) (o : Outcome)
    (h : (calls.foldl
      (fun o c =>
        ({ ui := (Fv2.updateUI c.1 c.2 o.ui).ui
           threw := o.threw || (Fv2.updateUI c.1 c.2 o.ui).threw } : Outcome)) o).threw = false) :
    o.threw = false := by
  induction calls generalizing o with
  | nil => exact h
  | cons c cs ih =>
    rw [List.foldl_cons] at h
    have := ih _ h
    simp only [Bool.or_eq_false_iff] at this
    exact this.1

/-- A fold of richer `updateUI` calls none of which throws keeps an alert list
of at most twenty entries within twenty. -/
theorem fv2_foldl_le (calls : List (String × Payload)) (o : Outcome)
    (hdone : (calls.foldl
      (fun o c =>
        ({ ui := (Fv2.updateUI c.1 c.2 o.ui).ui
           threw := o.threw || (Fv2.updateUI c.1 c.2 o.ui).threw } : Outcome)) o).threw = false)
    (hle : o.ui.alerts.length ≤ 20) :
    (calls.foldl
      (fun o c =>
        ({ ui := (Fv2.updateUI c.1 c.2 o.ui).ui
           threw := o.threw || (Fv2.updateUI c.1 c.2 o.ui).threw } : Outcome)) o).ui.alerts.length
      ≤ 20 := by
  induction calls generalizing o with
  | nil => exact hle
  | cons c cs ih =>
    rw [List.foldl_cons] at hdone ⊢
    have hstep := fv2_foldl_threw cs _ hdone
    simp only [Bool.or_eq_false_iff] at hstep
    exact ih _ hdone (fv2_updateUI_completes_le c.1 c.2 o.ui hstep.2 hle)

/-- A run of richer `updateUI` calls none of which throws keeps an alert list
of at most twenty entries within twenty. -/
theorem fv2_runCalls_le (calls : List (String × Payload)) (ui : UI)
    (hdone : (Fv2.runCalls calls ui).threw = false) (hle : ui.alerts.length ≤ 20) :
    (Fv2.runCalls calls ui).ui.alerts.length ≤ 20 :=
  fv2_foldl_le calls _ hdone hle

/-- A run of richer `updateUI` calls on well-formed results keeps an alert list
of at most twenty entries within twenty. -/
theorem fv2_updates_alerts_le (calls : List (String × AnalysisResult)) (ui : UI)
    (h : ui.alerts.length ≤ 20) : (Fv2.updates calls ui).alerts.length ≤ 20 := by
  unfold Fv2.updates
  induction calls generalizing ui with
  | nil => exact h
  | cons c cs ih =>
    rw [List.foldl_cons]
    apply ih
    rw [fv2_updateUI_alerts]
    by_cases hl : c.2.logs.length > 0
    · rw [if_pos hl, List.length_take]; exact Nat.min_le_left _ _
    · rw [if_neg hl]; exact h

/-- The markup of the alert built from `exampleThreat` does not contain
"No active threats". -/
theorem exampleThreat_no_marker :
    Fv2.itemIncludesMarker (Item.alert exampleThreat.toRaw "12:00:00") = false := by
  decide

/-- The placeholder is the child that contains "No active threats". -/
theorem placeholder_marker : Fv2.itemIncludesMarker Item.placeholder = true := rfl

theorem exampleThreat_qualifies : Fv2.qualifies exampleThreat.toRaw = true := by
  simp [Fv2.qualifies, exampleThreat, LogEntry.toRaw]

/-- Seven batches of three threats fill the alert list of the richer variant:
the first clears the placeholder, the seventh is trimmed to twenty. -/
theorem seven_batches_fill :
    (Fv2.updates (List.replicate 7 ("12:00:00", exampleBatch)) examplePage).alerts
      = List.replicate 20 (Item.alert exampleThreat.toRaw "12:00:00") := by
  simp [Fv2.updates, List.replicate, fv2_updateUI_alerts, exampleBatch, exampleThreat_qualifies,
    exampleThreat_no_marker, examplePage, placeholder_marker]

/-- C6 (amended): in the richer variant the alert list is capped at twenty on
every run of `updateUI` calls that complete.  From the placeholder-only list,
after each call of a run on well-formed results, and after each call of a run
on arbitrary payloads none of whose calls throws, the list holds at most
twenty entries.  A call on a well-formed result with a non-empty `logs` array
clears the list if its markup contains "No active threats", puts the
qualifying entries among the first three of the batch in front (the last one
first) and keeps the first twenty children, so what is dropped sits at the end
of the list; a call with empty `logs` leaves the list as it is.  (A call that
throws inside the alert block ends before the trimming loop; the cap is not
claimed for it.)  In the basic variant there is no cap: a call on a
well-formed result with a non-empty `logs` array puts every `is_threat` entry
of the batch in front of the (cleared or kept) list and drops nothing. -/
theorem C6_alert_list_cap (ui0 ui : UI) (wellFormed : List (String × AnalysisResult))
    (calls : List (String × Payload)) (now : String) (r : AnalysisResult)
    (h0 : ui0.alerts = [Item.placeholder])
    (hdone : (Fv2.runCalls calls ui0).threw = false) :
    (Fv2.updates wellFormed ui0).alerts.length ≤ 20
      ∧ (Fv2.runCalls calls ui0).ui.alerts.length ≤ 20
      ∧ (Fv2.updateUI now r.toPayload ui).ui.alerts
        = (if r.logs.length > 0 then
            ((((r.logs.take 3).filter (fun l => Fv2.qualifies l.toRaw)).map
                (fun l => Item.alert l.toRaw now)).reverse
              ++ (if ui.alerts.any Fv2.itemIncludesMarker then [] else ui.alerts)).take 20
          else ui.alerts)
      ∧ (Basic.updateUI now r.toPayload ui).ui.alerts
        = (if r.logs.length > 0 then
            ((r.logs.filter (fun l => l.is_threat)).map (fun l => Item.alert l.toRaw now)).reverse
              ++ (if ui.alerts.any Basic.itemIncludesMarker then [] else ui.alerts)
          else ui.alerts) :=
  ⟨fv2_updates_alerts_le wellFormed ui0 (by rw [h0]; decide),
    fv2_runCalls_le calls ui0 hdone (by rw [h0]; decide),
    fv2_updateUI_alerts now r ui, basic_updateUI_alerts now r ui⟩

theorem C6_alert_list_cap_witness :
    examplePage.alerts = [Item.placeholder]
      ∧ (Fv2.runCalls [("12:00:00", exampleResult.toPayload)] examplePage).threw = false
      ∧ (Fv2.updates [("12:00:00", exampleResult), ("12:00:02", exampleResult)]
          examplePage).alerts.length ≤ 20
      ∧ (Fv2.runCalls [("12:00:00", exampleResult.toPayload)] examplePage).ui.alerts.length
          ≤ 20 :=
  have hdone : (Fv2.runCalls [("12:00:00", exampleResult.toPayload)] examplePage).threw
      = false := by
    simp [Fv2.runCalls, fv2_updateUI_completes]
  have h := C6_alert_list_cap examplePage examplePage
    [("12:00:00", exampleResult), ("12:00:02", exampleResult)]
    [("12:00:00", exampleResult.toPayload)] "12:00:00" exampleResult rfl hdone
  ⟨rfl, hdone, h.1, h.2.1⟩

/-- C6 (as stated, refuted): from the placeholder-only list, one basic
`updateUI` call whose batch holds 21 threats leaves 21 alerts.  In the richer
variant, after seven batches of three threats (twenty alerts), a call whose
batch is two threats followed by `{is_threat: true}` prepends two alerts and
throws on the third entry before the trimming loop, leaving 22 alerts. -/
theorem C6_basic_no_cap_counterexample :
    examplePage.alerts = [Item.placeholder]
      ∧ (Basic.updates
          [("12:00:00", { exampleResult with logs := List.replicate 21 exampleThreat })]
          examplePage).alerts.length = 21
      ∧ (Fv2.updateUI "12:00:14" examplePayloadBadThird
          (Fv2.updates (List.replicate 7 ("12:00:00", exampleBatch)) examplePage)).threw = true
      ∧ (Fv2.updateUI "12:00:14" examplePayloadBadThird
          (Fv2.updates (List.replicate 7 ("12:00:00", exampleBatch))
            examplePage)).ui.alerts.length = 22 := by
  refine ⟨rfl, ?_, ?_⟩
  · unfold Basic.updates
    rw [List.foldl_cons, List.foldl_nil, basic_updateUI_alerts]
    simp [examplePage, exampleThreat, Basic.itemIncludesMarker]
  · obtain ⟨h1, h2⟩ := fv2_updateUI_alerts_eq "12:00:14" examplePayloadBadThird
      (Fv2.updates (List.replicate 7 ("12:00:00", exampleBatch)) examplePage) (1 / 4) rfl
    have hthrows : Fv2.entryThrows (some exampleBareThreat) = true := by decide
    have hok : Fv2.entryThrows (some exampleThreat.toRaw) = false := by
      simp [Fv2.entryThrows, exampleThreat, LogEntry.toRaw]
    rw [h1, h2]
    simp only [Fv2.renderAlerts, examplePayloadBadThird, seven_batches_fill]
    simp [fv2_forEach_eq, hthrows, hok, Fv2.entryItem, exampleThreat_qualifies,
      exampleThreat_no_marker, List.takeWhile, List.replicate]

/-! ## Failed requests -/

/-- The richer `updateUI` on a payload with `average_drift` is the alert block
run on the page the four earlier blocks leave. -/
theorem fv2_updateUI_some (now : String) (d : Payload) (ui : UI) (a : ℚ)
    (ha : d.average_drift = some a) :
    Fv2.updateUI now d ui
      = Fv2.renderAlerts now d.logs
          (chartPush 100 now a
            (renderThreat (Fv2.threatProb d)
              (Fv2.renderIntent d
                { ui with
                  driftScore := Text.fixed (JsNum.fin a) 4
                  eventsCount := ui.eventsCount + d.total_analyzed }))) := by
  unfold Fv2.updateUI
  rw [ha]

/-- The other fields the chart block and the tiles blocks leave alone. -/
theorem chartPush_rest (bound : Nat) (now : String) (v : ℚ) (ui : UI) :
    (chartPush bound now v ui).driftScore = ui.driftScore
      ∧ (chartPush bound now v ui).eventsCount = ui.eventsCount
      ∧ (chartPush bound now v ui).alertCount = ui.alertCount := by
  unfold chartPush
  by_cases h : bound < ui.labels.length + 1 <;> simp [h]

theorem renderThreat_rest (t : JsNum) (ui : UI) :
    (renderThreat t ui).driftScore = ui.driftScore
      ∧ (renderThreat t ui).eventsCount = ui.eventsCount
      ∧ (renderThreat t ui).alertCount = ui.alertCount := by
  unfold renderThreat
  split_ifs <;> exact ⟨rfl, rfl, rfl⟩

theorem fv2_renderIntent_rest (d : Payload) (ui : UI) :
    (Fv2.renderIntent d ui).driftScore = ui.driftScore
      ∧ (Fv2.renderIntent d ui).eventsCount = ui.eventsCount
      ∧ (Fv2.renderIntent d ui).alertCount = ui.alertCount := by
  unfold Fv2.renderIntent
  split_ifs <;> exact ⟨rfl, rfl, rfl⟩

/-- The threat tile and the bar `renderThreat` writes, for any percentage. -/
theorem renderThreat_tile (t : JsNum) (ui : UI) :
    (renderThreat t ui).threatProb = Text.fixedPct t 1
      ∧ (renderThreat t ui).progressWidth = Text.pct t
      ∧ (renderThreat t ui).threatClass
        = (if t.gt 15 then "stat-value threat-high"
            else if t.gt 5 then "stat-value threat-med" else "stat-value threat-low")
      ∧ (renderThreat t ui).progressClass
        = (if t.gt 15 then "progress-bar bg-danger"
            else if t.gt 5 then "progress-bar bg-warning" else "progress-bar bg-success") := by
  unfold renderThreat
  cases h1 : t.gt 15
  · cases h2 : t.gt 5 <;> simp
  · simp

/-- The tiles and the chart after the richer `updateUI` on a payload with
`average_drift`, whether or not the alert block throws. -/
theorem fv2_updateUI_written (now : String) (d : Payload) (ui : UI) (a : ℚ)
    (ha : d.average_drift = some a) :
    (Fv2.updateUI now d ui).ui.driftScore = Text.fixed (JsNum.fin a) 4
      ∧ (Fv2.updateUI now d ui).ui.eventsCount = ui.eventsCount + d.total_analyzed
      ∧ (Fv2.updateUI now d ui).ui.intentText
          = (if 50 < d.forecast_prob then "CRITICAL"
              else if 20 < d.forecast_prob then "WARNING" else "NORMAL")
      ∧ (Fv2.updateUI now d ui).ui.intentClass
          = (if 50 < d.forecast_prob then "stat-value text-danger"
              else if 20 < d.forecast_prob then "stat-value text-warning"
              else "stat-value text-success")
      ∧ (Fv2.updateUI now d ui).ui.threatProb = Text.fixedPct (Fv2.threatProb d) 1
      ∧ (Fv2.updateUI now d ui).ui.progressWidth = Text.pct (Fv2.threatProb d)
      ∧ (Fv2.updateUI now d ui).ui.threatClass
          = (if (Fv2.threatProb d).gt 15 then "stat-value threat-high"
              else if (Fv2.threatProb d).gt 5 then "stat-value threat-med"
              else "stat-value threat-low")
      ∧ (Fv2.updateUI now d ui).ui.progressClass
          = (if (Fv2.threatProb d).gt 15 then "progress-bar bg-danger"
              else if (Fv2.threatProb d).gt 5 then "progress-bar bg-warning"
              else "progress-bar bg-success")
      ∧ (Fv2.updateUI now d ui).ui.labels
          = (if 100 < ui.labels.length + 1 then (ui.labels ++ [now]).tail else ui.labels ++ [now])
      ∧ (Fv2.updateUI now d ui).ui.values
          = (if 100 < ui.labels.length + 1 then (ui.values ++ [a]).tail else ui.values ++ [a]) := by
  rw [fv2_updateUI_some now d ui a ha, fv2_renderAlerts_frame]
  simp only [(chartPush_rest _ _ _ _).1, (chartPush_rest _ _ _ _).2.1,
    (renderThreat_rest _ _).1, (renderThreat_rest _ _).2.1,
    (fv2_renderIntent_rest _ _).1, (fv2_renderIntent_rest _ _).2.1,
    (chartPush_tiles _ _ _ _).1, (chartPush_tiles _ _ _ _).2.1, (chartPush_tiles _ _ _ _).2.2.1,
    (chartPush_tiles _ _ _ _).2.2.2.1, (chartPush_tiles _ _ _ _).2.2.2.2.1,
    (chartPush_tiles _ _ _ _).2.2.2.2.2,
    (renderThreat_intent _ _).1, (renderThreat_intent _ _).2,
    (renderThreat_tile _ _).1, (renderThreat_tile _ _).2.1, (renderThreat_tile _ _).2.2.1,
    (renderThreat_tile _ _).2.2.2,
    (fv2_renderIntent_tile _ _).1, (fv2_renderIntent_tile _ _).2, chartPush_labels,
    chartPush_values, renderThreat_labels, renderThreat_values,
    (fv2_renderIntent_chart _ _).1, (fv2_renderIntent_chart _ _).2.1]
  simp

/-- An alert block that throws has not written the alert count. -/
theorem fv2_renderAlerts_threw_count (now : String) (logs : LogsField) (ui : UI)
    (h : (Fv2.renderAlerts now logs ui).threw = true) :
    (Fv2.renderAlerts now logs ui).ui.alertCount = ui.alertCount := by
  unfold Fv2.renderAlerts at h ⊢
  cases logs with
  | missing => rfl
  | nonArray b => cases b <;> rfl
  | array es =>
    by_cases hl : es.length > 0
    · simp only [hl, if_true] at h ⊢
      cases ht : (forEachAlert (Fv2.alertStep now) (List.take 3 es)
          (if ui.alerts.any Fv2.itemIncludesMarker = true then [] else ui.alerts)).2 with
      | true => simp only [ht, if_true]
      | false =>
        rw [ht] at h
        simp at h
    · simp only [hl, if_false]

/-- The alert list an alert block leaves when it throws on an array: the array
is not empty, one of its first three entries throws, and the list is the
cleared (or kept) list with the items of the entries before that one in
front. -/
theorem fv2_renderAlerts_threw_array (now : String) (es : List (Option RawLog)) (ui : UI)
    (h : (Fv2.renderAlerts now (LogsField.array es) ui).threw = true) :
    0 < es.length
      ∧ (es.take 3).any Fv2.entryThrows = true
      ∧ (Fv2.renderAlerts now (LogsField.array es) ui).ui.alerts
        = ((((es.take 3).takeWhile (fun s => !Fv2.entryThrows s)).filterMap
              (Fv2.entryItem now)).reverse
            ++ (if ui.alerts.any Fv2.itemIncludesMarker then [] else ui.alerts)) := by
  unfold Fv2.renderAlerts at h ⊢
  by_cases hl : es.length > 0
  · simp only [hl, if_true, fv2_forEach_eq] at h ⊢
    cases ht : (List.take 3 es).any Fv2.entryThrows with
    | true => simp [ht]
    | false =>
      rw [ht] at h
      simp at h
  · simp only [hl, if_false] at h
    simp at h

/-- C4 (amended): in the richer variant, for every prior page and every
analyze call that fails (the `catch` block of `runAnalysis` runs, so no
exception leaves the handler), the alert count is what it was.  When the fetch
rejects, the response is not JSON, or the payload has no numeric
`average_drift`, the whole page is what it was, the analyze button carrying
its idle label.  When the payload has `average_drift`, the failure lies in the
alert block, met after the tiles and the chart were written: the drift score
shows the new average, the events count has grown by `total_analyzed`, the
intent label and class are those of `forecast_prob`, the threat tile and the
bar show `threatProb` with the class of its tier, and the chart has received
the point `(now, average_drift)`.  The alert list is then: unchanged when
`logs` is absent; cleared of the placeholder when `logs` is not an array; and,
when `logs` is an array one of whose first three entries throws, cleared of the
placeholder with the qualifying entries before that one in front, untrimmed. -/
theorem C4_failed_analysis (now : String) (resp : Fetch Payload) (ui : UI)
    (hfail : (Fv2.runAnalysis now resp ui).logged = true) :
    (Fv2.runAnalysis now resp ui).ui.alertCount = ui.alertCount
    ∧ ((resp = Fetch.rejected ∨ resp = Fetch.notJson
          ∨ ∃ d, resp = Fetch.json d ∧ d.average_drift = none) →
        (Fv2.runAnalysis now resp ui).ui = { ui with analyzeBtnHtml := labelRunAnalysis })
    ∧ (∀ d a, resp = Fetch.json d → d.average_drift = some a →
        ((Fv2.runAnalysis now resp ui).ui.driftScore = Text.fixed (JsNum.fin a) 4
          ∧ (Fv2.runAnalysis now resp ui).ui.eventsCount = ui.eventsCount + d.total_analyzed
          ∧ (Fv2.runAnalysis now resp ui).ui.intentText
              = (if 50 < d.forecast_prob then "CRITICAL"
                  else if 20 < d.forecast_prob then "WARNING" else "NORMAL")
          ∧ (Fv2.runAnalysis now resp ui).ui.intentClass
              = (if 50 < d.forecast_prob then "stat-value text-danger"
                  else if 20 < d.forecast_prob then "stat-value text-warning"
                  else "stat-value text-success")
          ∧ (Fv2.runAnalysis now resp ui).ui.threatProb = Text.fixedPct (Fv2.threatProb d) 1
          ∧ (Fv2.runAnalysis now resp ui).ui.progressWidth = Text.pct (Fv2.threatProb d)
          ∧ (Fv2.runAnalysis now resp ui).ui.threatClass
              = (if (Fv2.threatProb d).gt 15 then "stat-value threat-high"
                  else if (Fv2.threatProb d).gt 5 then "stat-value threat-med"
                  else "stat-value threat-low")
          ∧ (Fv2.runAnalysis now resp ui).ui.progressClass
              = (if (Fv2.threatProb d).gt 15 then "progress-bar bg-danger"
                  else if (Fv2.threatProb d).gt 5 then "progress-bar bg-warning"
                  else "progress-bar bg-success")
          ∧ (Fv2.runAnalysis now resp ui).ui.labels
              = (if 100 < ui.labels.length + 1 then (ui.labels ++ [now]).tail
                  else ui.labels ++ [now])
          ∧ (Fv2.runAnalysis now resp ui).ui.values
              = (if 100 < ui.labels.length + 1 then (ui.values ++ [a]).tail
                  else ui.values ++ [a]))
        ∧ (d.logs = LogsField.missing → (Fv2.runAnalysis now resp ui).ui.alerts = ui.alerts)
        ∧ (∀ b, d.logs = LogsField.nonArray b →
            b = true
              ∧ (Fv2.runAnalysis now resp ui).ui.alerts
                = (if ui.alerts.any Fv2.itemIncludesMarker then [] else ui.alerts))
        ∧ (∀ es, d.logs = LogsField.array es →
            0 < es.length
              ∧ (es.take 3).any Fv2.entryThrows = true
              ∧ (Fv2.runAnalysis now resp ui).ui.alerts
                = ((((es.take 3).takeWhile (fun s => !Fv2.entryThrows s)).filterMap
                      (Fv2.entryItem now)).reverse
                    ++ (if ui.alerts.any Fv2.itemIncludesMarker then [] else ui.alerts)))) := by
  cases resp with
  | rejected => exact ⟨rfl, fun _ => rfl, fun d a h _ => by cases h⟩
  | notJson => exact ⟨rfl, fun _ => rfl, fun d a h _ => by cases h⟩
  | json d =>
    cases ha : d.average_drift with
    | none =>
      have hu : Fv2.updateUI now d { ui with analyzeBtnHtml := spinnerAnalyzing }
          = { ui := { ui with analyzeBtnHtml := spinnerAnalyzing }, threw := true } := by
        unfold Fv2.updateUI
        rw [ha]
      have hr : (Fv2.runAnalysis now (Fetch.json d) ui).ui
          = { ui with analyzeBtnHtml := labelRunAnalysis } := by
        simp only [Fv2.runAnalysis, hu]
      refine ⟨by rw [hr], fun _ => hr, ?_⟩
      intro d2 a h hsome
      cases h
      rw [ha] at hsome
      cases hsome
    | some a =>
      have hthrew : (Fv2.updateUI now d { ui with analyzeBtnHtml := spinnerAnalyzing }).threw
          = true := hfail
      obtain ⟨ea, et⟩ :=
        fv2_updateUI_alerts_eq now d { ui with analyzeBtnHtml := spinnerAnalyzing } a ha
      obtain ⟨ca, ct⟩ := fv2_renderAlerts_congr now d.logs
        { ui with analyzeBtnHtml := spinnerAnalyzing } ui rfl
      have hR : (Fv2.renderAlerts now d.logs ui).threw = true := by
        rw [← ct, ← et]; exact hthrew
      have hal : (Fv2.runAnalysis now (Fetch.json d) ui).ui.alerts
          = (Fv2.renderAlerts now d.logs ui).ui.alerts := ea.trans ca
      have hcount : (Fv2.runAnalysis now (Fetch.json d) ui).ui.alertCount = ui.alertCount := by
        have h1 : (Fv2.updateUI now d { ui with analyzeBtnHtml := spinnerAnalyzing }).ui.alertCount
            = ui.alertCount := by
          rw [fv2_updateUI_some now d _ a ha] at hthrew ⊢
          rw [fv2_renderAlerts_threw_count _ _ _ hthrew, (chartPush_rest _ _ _ _).2.2,
            (renderThreat_rest _ _).2.2, (fv2_renderIntent_rest _ _).2.2]
        exact h1
      refine ⟨hcount, ?_, ?_⟩
      · rintro (h | h | ⟨d2, h, hnone⟩)
        · cases h
        · cases h
        · cases h
          rw [ha] at hnone
          cases hnone
      · intro d2 a2 h hsome
        cases h
        rw [ha] at hsome
        cases hsome
        refine ⟨fv2_updateUI_written now d { ui with analyzeBtnHtml := spinnerAnalyzing } a ha,
          ?_, ?_, ?_⟩
        · intro hl
          rw [hal, hl]
          rfl
        · intro b hl
          rw [hl] at hR
          rw [hal, hl]
          cases b with
          | true => exact ⟨rfl, rfl⟩
          | false => simp [Fv2.renderAlerts] at hR
        · intro es hl
          rw [hl] at hR
          rw [hal, hl]
          exact fv2_renderAlerts_threw_array now es ui hR

theorem C4_failed_analysis_witness :
    (Fv2.runAnalysis "12:00:00" (Fetch.json examplePayloadBareThreat) examplePage).logged = true
      ∧ (Fv2.runAnalysis "12:00:00" (Fetch.json examplePayloadBareThreat) examplePage).ui.alertCount
          = examplePage.alertCount :=
  have h : (Fv2.runAnalysis "12:00:00" (Fetch.json examplePayloadBareThreat)
      examplePage).logged = true := by
    simp [Fv2.runAnalysis, Fv2.updateUI, Fv2.renderAlerts, examplePayloadBareThreat,
      exampleResult, AnalysisResult.toPayload, forEachAlert, Fv2.alertStep, Fv2.qualifies,
      exampleBareThreat]
  ⟨h, (C4_failed_analysis "12:00:00" (Fetch.json examplePayloadBareThreat) examplePage h).1⟩

/-- C4 (as stated, refuted): a payload with valid `average_drift` and
`total_analyzed` but no `logs` field makes the call fail, and yet the events
count has gone from 0 to 20, the intent label from NORMAL to WARNING, and the
chart from empty to one point.  With `logs: [{is_threat: true}]` the call fails
as well, and the alert list has gone from the placeholder to empty. -/
theorem C4_partial_update_counterexample :
    (Fv2.runAnalysis "12:00:00" (Fetch.json examplePayloadNoLogs) examplePage).logged = true
      ∧ examplePage.eventsCount = 0
      ∧ (Fv2.runAnalysis "12:00:00" (Fetch.json examplePayloadNoLogs) examplePage).ui.eventsCount
          = 20
      ∧ examplePage.intentText = "NORMAL"
      ∧ (Fv2.runAnalysis "12:00:00" (Fetch.json examplePayloadNoLogs) examplePage).ui.intentText
          = "WARNING"
      ∧ examplePage.labels = []
      ∧ (Fv2.runAnalysis "12:00:00" (Fetch.json examplePayloadNoLogs) examplePage).ui.labels
          = ["12:00:00"]
      ∧ (Fv2.runAnalysis "12:00:00" (Fetch.json examplePayloadNoLogs) examplePage).ui.values
          = [1 / 4]
      ∧ (Fv2.runAnalysis "12:00:00" (Fetch.json examplePayloadBareThreat) examplePage).logged
          = true
      ∧ examplePage.alerts = [Item.placeholder]
      ∧ (Fv2.runAnalysis "12:00:00" (Fetch.json examplePayloadBareThreat) examplePage).ui.alerts
          = [] := by
  have hthrows : Fv2.entryThrows (some exampleBareThreat) = true := by decide
  obtain ⟨h1, h2⟩ := fv2_updateUI_alerts_eq "12:00:00" examplePayloadBareThreat
    { examplePage with analyzeBtnHtml := spinnerAnalyzing } (1 / 4) rfl
  have ha : (Fv2.runAnalysis "12:00:00" (Fetch.json examplePayloadBareThreat)
      examplePage).ui.alerts
      = (Fv2.updateUI "12:00:00" examplePayloadBareThreat
          { examplePage with analyzeBtnHtml := spinnerAnalyzing }).ui.alerts := rfl
  have hl : (Fv2.runAnalysis "12:00:00" (Fetch.json examplePayloadBareThreat)
      examplePage).logged
      = (Fv2.updateUI "12:00:00" examplePayloadBareThreat
          { examplePage with analyzeBtnHtml := spinnerAnalyzing }).threw := rfl
  have e1 : (Fv2.runAnalysis "12:00:00" (Fetch.json examplePayloadNoLogs)
      examplePage).ui.eventsCount = 20 := by
    simp [Fv2.runAnalysis, Fv2.updateUI, Fv2.renderAlerts, Fv2.threatProb, examplePayloadNoLogs,
      exampleResult, AnalysisResult.toPayload, examplePage, chartPush, renderThreat,
      Fv2.renderIntent, JsNum.divInt, JsNum.times100, JsNum.gt]
    norm_num
  have e2 : (Fv2.runAnalysis "12:00:00" (Fetch.json examplePayloadNoLogs)
      examplePage).ui.intentText = "WARNING" := by
    simp [Fv2.runAnalysis, Fv2.updateUI, Fv2.renderAlerts, Fv2.threatProb, examplePayloadNoLogs,
      exampleResult, AnalysisResult.toPayload, examplePage, chartPush, renderThreat,
      Fv2.renderIntent, JsNum.divInt, JsNum.times100, JsNum.gt]
    norm_num
  have e3 : (Fv2.runAnalysis "12:00:00" (Fetch.json examplePayloadNoLogs)
      examplePage).ui.labels = ["12:00:00"] := by
    simp [Fv2.runAnalysis, Fv2.updateUI, Fv2.renderAlerts, Fv2.threatProb, examplePayloadNoLogs,
      exampleResult, AnalysisResult.toPayload, examplePage, chartPush, renderThreat,
      Fv2.renderIntent, JsNum.divInt, JsNum.times100, JsNum.gt]
    norm_num
  have e4 : (Fv2.runAnalysis "12:00:00" (Fetch.json examplePayloadNoLogs)
      examplePage).ui.values = [1 / 4] := by
    simp [Fv2.runAnalysis, Fv2.updateUI, Fv2.renderAlerts, Fv2.threatProb, examplePayloadNoLogs,
      exampleResult, AnalysisResult.toPayload, examplePage, chartPush, renderThreat,
      Fv2.renderIntent, JsNum.divInt, JsNum.times100, JsNum.gt]
    norm_num
  refine ⟨rfl, rfl, e1, rfl, e2, rfl, e3, e4, ?_, rfl, ?_⟩
  · rw [hl, h2]
    simp [Fv2.renderAlerts, examplePayloadBareThreat, fv2_forEach_eq, hthrows]
  · rw [ha, h1]
    simp [Fv2.renderAlerts, examplePayloadBareThreat, fv2_forEach_eq, hthrows, examplePage,
      placeholder_marker, List.takeWhile]

/-- A failed initialise request re-enables the baseline button and writes
nothing else. -/
theorem initClick_failed {α : Type} (resp : Fetch α) (ui : UI)
    (hfail : ∀ body, resp ≠ Fetch.json body) :
    initClick resp ui
      = { ui with initBtnDisabled := false, initBtnHtml := "Retry Initialization" } := by
  cases resp with
  | rejected => rfl
  | notJson => rfl
  | json b => exact absurd rfl (hfail b)

/-- The basic `updateUI` writes neither the buttons' `disabled` flags nor the
system status, whatever the payload. -/
theorem basic_updateUI_flags (now : String) (d : Payload) (ui : UI) :
    (Basic.updateUI now d ui).ui.analyzeBtnDisabled = ui.analyzeBtnDisabled
      ∧ (Basic.updateUI now d ui).ui.initBtnDisabled = ui.initBtnDisabled
      ∧ (Basic.updateUI now d ui).ui.systemStatus = ui.systemStatus
      ∧ (Basic.updateUI now d ui).ui.systemStatusClass = ui.systemStatusClass := by
  have hA : ∀ (logs : LogsField) (u : UI),
      (Basic.renderAlerts now logs u).ui.analyzeBtnDisabled = u.analyzeBtnDisabled
        ∧ (Basic.renderAlerts now logs u).ui.initBtnDisabled = u.initBtnDisabled
        ∧ (Basic.renderAlerts now logs u).ui.systemStatus = u.systemStatus
        ∧ (Basic.renderAlerts now logs u).ui.systemStatusClass = u.systemStatusClass := by
    intro logs u
    rw [basic_renderAlerts_frame]
    exact ⟨rfl, rfl, rfl, rfl⟩
  have hC : ∀ (v : ℚ) (u : UI),
      (chartPush 20 now v u).analyzeBtnDisabled = u.analyzeBtnDisabled
        ∧ (chartPush 20 now v u).initBtnDisabled = u.initBtnDisabled
        ∧ (chartPush 20 now v u).systemStatus = u.systemStatus
        ∧ (chartPush 20 now v u).systemStatusClass = u.systemStatusClass := by
    intro v u
    unfold chartPush
    by_cases h : 20 < u.labels.length + 1 <;> simp [h]
  have hT : ∀ (t : JsNum) (u : UI),
      (renderThreat t u).analyzeBtnDisabled = u.analyzeBtnDisabled
        ∧ (renderThreat t u).initBtnDisabled = u.initBtnDisabled
        ∧ (renderThreat t u).systemStatus = u.systemStatus
        ∧ (renderThreat t u).systemStatusClass = u.systemStatusClass := by
    intro t u
    unfold renderThreat
    split_ifs <;> exact ⟨rfl, rfl, rfl, rfl⟩
  have hI : ∀ (u : UI),
      (Basic.renderIntent d u).analyzeBtnDisabled = u.analyzeBtnDisabled
        ∧ (Basic.renderIntent d u).initBtnDisabled = u.initBtnDisabled
        ∧ (Basic.renderIntent d u).systemStatus = u.systemStatus
        ∧ (Basic.renderIntent d u).systemStatusClass = u.systemStatusClass := by
    intro u
    unfold Basic.renderIntent
    split_ifs <;> exact ⟨rfl, rfl, rfl, rfl⟩
  unfold Basic.updateUI
  cases d.average_drift with
  | none => exact ⟨rfl, rfl, rfl, rfl⟩
  | some a =>
    simp only [(hA _ _).1, (hA _ _).2.1, (hA _ _).2.2.1, (hA _ _).2.2.2, (hC _ _).1,
      (hC _ _).2.1, (hC _ _).2.2.1, (hC _ _).2.2.2, (hT _ _).1,
      (hT _ _).2.1, (hT _ _).2.2.1, (hT _ _).2.2.2, (hI _).1, (hI _).2.1, (hI _).2.2.1,
      (hI _).2.2.2, and_self]

/-- The basic analyze handler writes neither the buttons' `disabled` flags nor
the system status. -/
theorem basic_analyzeClick_flags (now : String) (resp : Fetch Payload) (ui : UI) :
    (Basic.analyzeClick now resp ui).ui.analyzeBtnDisabled = ui.analyzeBtnDisabled
      ∧ (Basic.analyzeClick now resp ui).ui.initBtnDisabled = ui.initBtnDisabled
      ∧ (Basic.analyzeClick now resp ui).ui.systemStatus = ui.systemStatus
      ∧ (Basic.analyzeClick now resp ui).ui.systemStatusClass = ui.systemStatusClass := by
  cases resp with
  | rejected => exact ⟨rfl, rfl, rfl, rfl⟩
  | notJson => exact ⟨rfl, rfl, rfl, rfl⟩
  | json d =>
    exact basic_updateUI_flags now d { ui with analyzeBtnHtml := spinnerAnalyzing }

/-- In the basic variant, while the baseline button can be clicked the analyze
button is still disabled and the system status is the one the page started
with. -/
theorem basic_run_clickable (events : List Basic.Event) (ui0 : UI)
    (h0 : ui0.analyzeBtnDisabled = true)
    (hclick : (Basic.run events ui0).initBtnDisabled = false) :
    (Basic.run events ui0).analyzeBtnDisabled = true
      ∧ (Basic.run events ui0).systemStatus = ui0.systemStatus
      ∧ (Basic.run events ui0).systemStatusClass = ui0.systemStatusClass := by
  have inv : ∀ (evs : List Basic.Event) (u : UI),
      (u.initBtnDisabled = false →
        u.analyzeBtnDisabled = true ∧ u.systemStatus = ui0.systemStatus
          ∧ u.systemStatusClass = ui0.systemStatusClass) →
      ((Basic.run evs u).initBtnDisabled = false →
        (Basic.run evs u).analyzeBtnDisabled = true
          ∧ (Basic.run evs u).systemStatus = ui0.systemStatus
          ∧ (Basic.run evs u).systemStatusClass = ui0.systemStatusClass) := by
    intro evs
    unfold Basic.run
    induction evs with
    | nil => intro u hu; exact hu
    | cons e es ih =>
      intro u hu
      rw [List.foldl_cons]
      apply ih
      intro hen
      cases e with
      | init resp =>
        simp only [Basic.handle] at hen ⊢
        by_cases hd : u.initBtnDisabled = true
        · rw [if_pos hd] at hen
          rw [hd] at hen
          cases hen
        · rw [if_neg hd] at hen ⊢
          have hd2 : u.initBtnDisabled = false := by simpa using hd
          cases resp with
          | rejected => exact hu hd2
          | notJson => exact hu hd2
          | json b => simp [initClick] at hen
      | analyze now resp =>
        simp only [Basic.handle] at hen ⊢
        by_cases ha : u.analyzeBtnDisabled = true
        · rw [if_pos ha] at hen ⊢
          exact hu hen
        · rw [if_neg ha] at hen ⊢
          obtain ⟨f1, f2, f3, f4⟩ := basic_analyzeClick_flags now resp u
          rw [f2] at hen
          rw [f1, f3, f4]
          exact hu hen
  exact inv events ui0 (fun _ => ⟨h0, rfl, rfl⟩) hclick

/-- C5 (amended): in both variants (the handler text is the same), for every
page, when the `/api/initialize` request fails (fetch rejection or non-JSON
response) the handler leaves the baseline button enabled with the label
"Retry Initialization", and leaves the `disabled` flag of the analyze button
and the system status exactly as they were.  In the basic variant, from a page
whose analyze button starts disabled, in every state reached by baseline and
analyze clicks in which the baseline button can be clicked, a failed
initialise therefore leaves the analyze button disabled and the system status
the one the page started with. -/
theorem C5_failed_init (ui ui0 : UI) (resp : Fetch Unit) (events : List Basic.Event)
    (hfail : ∀ body, resp ≠ Fetch.json body)
    (h0 : ui0.analyzeBtnDisabled = true)
    (hclick : (Basic.run events ui0).initBtnDisabled = false) :
    ((initClick resp ui).initBtnDisabled = false
      ∧ (initClick resp ui).initBtnHtml = "Retry Initialization"
      ∧ (initClick resp ui).analyzeBtnDisabled = ui.analyzeBtnDisabled
      ∧ (initClick resp ui).systemStatus = ui.systemStatus
      ∧ (initClick resp ui).systemStatusClass = ui.systemStatusClass)
    ∧ ((initClick resp (Basic.run events ui0)).initBtnDisabled = false
      ∧ (initClick resp (Basic.run events ui0)).analyzeBtnDisabled = true
      ∧ (initClick resp (Basic.run events ui0)).systemStatus = ui0.systemStatus
      ∧ (initClick resp (Basic.run events ui0)).systemStatusClass = ui0.systemStatusClass) := by
  obtain ⟨r1, r2, r3⟩ := basic_run_clickable events ui0 h0 hclick
  rw [initClick_failed resp ui hfail, initClick_failed resp (Basic.run events ui0) hfail]
  exact ⟨⟨rfl, rfl, rfl, rfl, rfl⟩, rfl, r1, r2, r3⟩

theorem C5_failed_init_witness :
    (∀ body, (Fetch.rejected : Fetch Unit) ≠ Fetch.json body)
      ∧ examplePage.analyzeBtnDisabled = true
      ∧ (Basic.run [Basic.Event.init Fetch.notJson] examplePage).initBtnDisabled = false
      ∧ (initClick (Fetch.rejected : Fetch Unit)
          (Basic.run [Basic.Event.init Fetch.notJson] examplePage)).initBtnDisabled = false
      ∧ (initClick (Fetch.rejected : Fetch Unit)
          (Basic.run [Basic.Event.init Fetch.notJson] examplePage)).analyzeBtnDisabled = true :=
  have h := (C5_failed_init examplePage examplePage Fetch.rejected
    [Basic.Event.init Fetch.notJson] (fun _ hb => Fetch.noConfusion hb) rfl rfl).2
  ⟨fun _ hb => Fetch.noConfusion hb, rfl, rfl, h.1, h.2.1⟩

/-- C5 (as stated, refuted for the richer variant): from a page whose analyze
button is disabled, a toggle-on followed by a toggle-off leaves the baseline
button clickable and the analyze button enabled; a failed initialise then
leaves the analyze button enabled. -/
theorem C5_toggle_then_failed_init_counterexample :
    exampleIdle.ui.analyzeBtnDisabled = true
      ∧ (Fv2.toggle false (Fv2.toggle true exampleIdle)).ui.initBtnDisabled = false
      ∧ (initClick (Fetch.rejected : Fetch Unit)
          (Fv2.toggle false (Fv2.toggle true exampleIdle)).ui).analyzeBtnDisabled = false
      ∧ (initClick (Fetch.notJson : Fetch Unit)
          (Fv2.toggle false (Fv2.toggle true exampleIdle)).ui).analyzeBtnDisabled = false :=
  ⟨rfl, rfl, rfl, rfl⟩

end DriftDashboard
